import Mathlib

/-
  Verification of the trade-anomaly-detective detection and scoring pipeline.

  The definitions below are shallow embeddings of the Python sources:
    src/rule_engine.py, src/statistical_detector.py, src/report_generator.py,
    src/llm_detector.py.
  Currency amounts, rates and statistics are modelled as exact rationals
  (reals where a square root occurs); machine floating point is not modelled.
  Free-text `description` fields are abbreviated: the Python numeric string
  formatting (e.g. "{:,.2f}") is not modelled, and no theorem depends on the
  content of a description.
-/

/-! ## Basic string and arithmetic utilities -/

/-- Python `\s` / `str.strip` whitespace class: space, tab, LF, CR, FF, VT. -/
def pyIsSpace (c : Char) : Bool :=
  c = ' ' || c = '\t' || c = '\n' || c = '\r' || c = '\x0b' || c = '\x0c'

/-- Leading-match test on character lists: does `p` occur at the head of `s`?
Used to model Python `str.startswith`. -/
def charsLead : List Char → List Char → Bool
  | [], _ => true
  | _ :: _, [] => false
  | c :: cs, d :: ds => c = d && charsLead cs ds

/-- Python `s.startswith(p)`. -/
def strLead (p s : String) : Bool := charsLead p.data s.data

/-- Does the pattern occur as a contiguous sublist anywhere? Models Python
`pat in s`. -/
def charsContain (pat : List Char) : List Char → Bool
  | [] => charsLead pat []
  | c :: cs => charsLead pat (c :: cs) || charsContain pat cs

/-- Python `pat in s` on strings. -/
def strContain (pat s : String) : Bool := charsContain pat.data s.data

/-- Python `str.strip()` on a character list. -/
def charsStrip (cs : List Char) : List Char :=
  ((cs.dropWhile pyIsSpace).reverse.dropWhile pyIsSpace).reverse

/-- Python `str.strip()`. -/
def pyStrip (s : String) : String := ⟨charsStrip s.data⟩

/-- Zero-padded three-digit counter rendering, as in Python `f"{n:03d}"`. -/
def pad3 (n : Nat) : String :=
  if n < 10 then "00" ++ toString n
  else if n < 100 then "0" ++ toString n
  else toString n

/-- Python `int()` truncation toward zero on a rational. -/
def pyInt (q : ℚ) : ℤ := if 0 ≤ q then ⌊q⌋ else ⌈q⌉

/-- Round half to even to an integer (the rounding used by numpy/pandas
`round`). -/
def roundHalfEven (q : ℚ) : ℤ :=
  if q - ⌊q⌋ < 1/2 then ⌊q⌋
  else if q - ⌊q⌋ > 1/2 then ⌊q⌋ + 1
  else if 2 ∣ ⌊q⌋ then ⌊q⌋ else ⌊q⌋ + 1

/-- Round half to even at 2 decimal places, as in `series.round(2)`. -/
def round2 (q : ℚ) : ℚ := (roundHalfEven (100 * q) : ℚ) / 100

/-- Round half to even at 1 decimal place, as in Python `round(x, 1)`. -/
def round1 (q : ℚ) : ℚ := (roundHalfEven (10 * q) : ℚ) / 10

/-- Arithmetic mean of a list of rationals (pandas `Series.mean`). -/
def listMean (xs : List ℚ) : ℚ := xs.sum / xs.length

/-- The last `n` elements of a list (pandas `DataFrame.tail(n)`). -/
def lastN (n : Nat) (xs : List α) : List α := xs.drop (xs.length - n)

/-- Group a list by a key, keys in first-occurrence order, rows in input
order (models `DataFrame.groupby`; pandas lists groups in sorted key order,
which only affects the sequence numbers in generated anomaly ids). -/
def groupsBy [DecidableEq κ] (k : α → κ) (xs : List α) : List (κ × List α) :=
  ((xs.map k).dedup).map (fun key => (key, xs.filter (fun x => decide (k x = key))))

/-! ## Data model -/

/-- A value stored in an anomaly evidence mapping. -/
inductive EvValue where
  | num (q : ℚ)
  | rnum (x : ℝ)
  | str (s : String)
  | bool (b : Bool)
  | null
deriving Inhabited

/-- One shipment row of `shipments.csv`. The `date` field is an ordinal day
number (only its ordering and its month are used). -/
structure Shipment where
  shipment_id : String
  dateOrd : Nat
  year_month : String
  buyer_name : String
  buyer_country : String
  product_description : String
  hs_code : String
  quantity : ℤ
  unit_price_usd : ℚ
  total_fob_usd : ℚ
  freight_cost_usd : ℚ
  insurance_usd : ℚ
  incoterm : String
  port_of_loading : String
  port_of_discharge : String
  container_type : String
  transit_days : ℤ
  customs_status : String
  drawback_rate_pct : ℚ
  drawback_amount_usd : ℚ
  payment_status : String
  days_to_payment : Option ℚ
deriving Inhabited

/-- An anomaly record as produced by the detection layers. -/
structure Anomaly where
  anomaly_id : String
  layer : String
  shipment_id : String
  category : String
  sub_type : String
  description : String
  evidence : List (String × EvValue)
  severity : String
  recommendation : String
  estimated_penalty_usd : ℚ
  detection_method : String
deriving Inhabited

/-- One row of the buyer registry (`buyers.csv`); only the fields read by the
detectors are modelled. -/
structure Buyer where
  buyer_name : String
  avg_payment_days : ℚ
  credit_rating : String
deriving Inhabited

/-- One row of the product catalog; only the fields read by the detectors. -/
structure ProductInfo where
  product_description : String
  price_range_min : ℚ
  price_range_max : ℚ
deriving Inhabited

/-- One record of the planted-anomaly manifest (`planted_anomalies.json`). -/
structure Planted where
  planted_id : String
  shipment_id : String
  category : String
  sub_type : String
deriving Inhabited

/-- Replace an anomaly's id, leaving every other field unchanged. -/
def setAnomalyId (a : Anomaly) (i : String) : Anomaly := { a with anomaly_id := i }

/-- Assign layer-prefixed sequential anomaly ids from `n` upward. -/
def numberFrom (pre : String) (n : Nat) : List Anomaly → List Anomaly
  | [] => []
  | a :: as => setAnomalyId a (pre ++ pad3 n) :: numberFrom pre (n + 1) as

/-- Assign layer-prefixed sequential anomaly ids, modelling the mutable
`counter` in each Python layer: the n-th emitted anomaly gets id
`PRE-{n:03d}`. -/
def numberAnoms (pre : String) (as : List Anomaly) : List Anomaly :=
  numberFrom pre 1 as

/-! ## Rule engine (src/rule_engine.py) -/

/-- CHECK 1 expected FOB: `(quantity * unit_price_usd).round(2)`. -/
def expected_fob (s : Shipment) : ℚ := round2 ((s.quantity : ℚ) * s.unit_price_usd)

/-- CHECK 1 difference: `(total_fob_usd - expected_fob).abs()`. -/
def fob_diff (s : Shipment) : ℚ := |s.total_fob_usd - expected_fob s|

/-- CHECK 1 firing condition: `fob_diff > 0.05` ($0.05 rounding tolerance). -/
def fobFires (s : Shipment) : Bool := decide (fob_diff s > 0.05)

/-- CHECK 1: FOB ≠ qty × unit_price. -/
def fobCheck (df : List Shipment) : List Anomaly :=
  (df.filter fobFires).map (fun row =>
    { anomaly_id := ""
      layer := "rule_based"
      shipment_id := row.shipment_id
      category := "pricing"
      sub_type := "fob_math_error"
      description := "FOB mismatch: reported does not equal calculated"
      evidence :=
        [ ("reported_fob", .num row.total_fob_usd)
        , ("quantity", .num (row.quantity : ℚ))
        , ("unit_price", .num row.unit_price_usd)
        , ("calculated_fob", .num (expected_fob row))
        , ("difference", .num (fob_diff row)) ]
      severity := "critical"
      recommendation := "Verify invoice with buyer. Correct FOB before drawback claim submission."
      estimated_penalty_usd := 5000
      detection_method := "Rule-based arithmetic/logic check" })

/-- CHECK 2: drawback claimed on a rejected shipment. -/
def drawbackCheck (df : List Shipment) : List Anomaly :=
  (df.filter (fun s => s.customs_status == "rejected" && decide (s.drawback_amount_usd > 0))).map
    (fun row =>
      { anomaly_id := ""
        layer := "rule_based"
        shipment_id := row.shipment_id
        category := "compliance"
        sub_type := "drawback_on_rejected"
        description := "Drawback claimed but customs_status is REJECTED."
        evidence :=
          [ ("customs_status", .str row.customs_status)
          , ("drawback_amount", .num row.drawback_amount_usd)
          , ("drawback_rate_pct", .num row.drawback_rate_pct) ]
        severity := "critical"
        recommendation := "Reverse drawback claim immediately. File amendment with DGFT."
        estimated_penalty_usd := (pyInt (row.drawback_amount_usd * 3) : ℚ)
        detection_method := "Rule-based arithmetic/logic check" })

/-- CHECK 3: payment received but `days_to_payment` is null. -/
def receivedNullCheck (df : List Shipment) : List Anomaly :=
  (df.filter (fun s => s.payment_status == "received" && s.days_to_payment.isNone)).map
    (fun row =>
      { anomaly_id := ""
        layer := "rule_based"
        shipment_id := row.shipment_id
        category := "payment"
        sub_type := "received_null_days"
        description := "Payment status received but days_to_payment is NULL. Contradictory record."
        evidence :=
          [ ("payment_status", .str row.payment_status)
          , ("days_to_payment", .null)
          , ("buyer", .str row.buyer_name) ]
        severity := "medium"
        recommendation := "Investigate with accounts team. Update payment date in ERP."
        estimated_penalty_usd := 500
        detection_method := "Rule-based arithmetic/logic check" })

/-- CHECK 4: CIF incoterm but freight = 0. -/
def cifCheck (df : List Shipment) : List Anomaly :=
  (df.filter (fun s => s.incoterm == "CIF" && decide (s.freight_cost_usd = 0))).map
    (fun row =>
      { anomaly_id := ""
        layer := "rule_based"
        shipment_id := row.shipment_id
        category := "cross_field"
        sub_type := "cif_zero_freight"
        description := "Incoterm is CIF (seller pays freight+insurance) but freight_cost_usd = 0."
        evidence :=
          [ ("incoterm", .str row.incoterm)
          , ("freight_cost_usd", .num row.freight_cost_usd)
          , ("total_fob", .num row.total_fob_usd) ]
        severity := "high"
        recommendation := "Check if freight was invoiced separately. Update freight_cost_usd or change incoterm."
        estimated_penalty_usd := 2500
        detection_method := "Rule-based arithmetic/logic check" })

/-- CHECK 5 insurance rate: `insurance_usd / total_fob_usd * 100`, a
percentage, defined only on rows with positive FOB. -/
def insurance_rate (s : Shipment) : ℚ := s.insurance_usd / s.total_fob_usd * 100

/-- CHECK 5 firing condition, after the `total_fob_usd > 0` pre-filter:
rate above 0.8% or (below 0.05% with positive insurance). -/
def insuranceFires (s : Shipment) : Bool :=
  decide (s.total_fob_usd > 0) &&
    (decide (insurance_rate s > 0.8) ||
      (decide (insurance_rate s < 0.05) && decide (s.insurance_usd > 0)))

/-- CHECK 5: insurance rate outside the expected band. -/
def insuranceCheck (df : List Shipment) : List Anomaly :=
  (df.filter insuranceFires).map (fun row =>
    { anomaly_id := ""
      layer := "rule_based"
      shipment_id := row.shipment_id
      category := "cross_field"
      sub_type := "insurance_rate_error"
      description := if insurance_rate row > 0.8
        then "Insurance rate out of band. OVERCHARGED."
        else "Insurance rate out of band. SUSPICIOUSLY LOW."
      evidence :=
        [ ("insurance_usd", .num row.insurance_usd)
        , ("total_fob_usd", .num row.total_fob_usd)
        , ("calculated_rate_pct", .num (round2 (insurance_rate row * 100) / 100))
        , ("expected_range", .str "0.1% - 0.4%") ]
      severity := if insurance_rate row > 0.8 then "medium" else "low"
      recommendation := "Verify insurance policy. Standard marine cargo insurance = 0.1-0.3% of CIF value."
      estimated_penalty_usd := 500
      detection_method := "Rule-based arithmetic/logic check" })

/-- `run_rule_checks`: the five checks in order, with RULE-prefixed ids. -/
def run_rule_checks (df : List Shipment) : List Anomaly :=
  numberAnoms "RULE-"
    (fobCheck df ++ drawbackCheck df ++ receivedNullCheck df ++ cifCheck df ++ insuranceCheck df)

/-! ## Statistics utility and statistical detector (src/statistical_detector.py) -/

/-- Sample variance with one delta degree of freedom, i.e. the square of
pandas `Series.std()`; `none` models the NaN returned for fewer than two
elements. -/
def sampleVar (xs : List ℚ) : Option ℚ :=
  if xs.length < 2 then none
  else some ((xs.map (fun x => (x - listMean xs) ^ 2)).sum / ((xs.length : ℚ) - 1))

/-- `zscore`: per-element (value − mean)/std; all zeros when the standard
deviation is zero or undefined (the `std == 0 or pd.isna(std)` guard). -/
noncomputable def zscore (xs : List ℚ) : List ℝ :=
  match sampleVar xs with
  | none => List.replicate xs.length 0
  | some v =>
      if v = 0 then List.replicate xs.length 0
      else xs.map (fun x => ((x : ℝ) - (listMean xs : ℚ)) / Real.sqrt v)

/-- Branch on a proposition that is only classically decidable (the float
comparisons against a computed Z-score). -/
noncomputable def rIf (p : Prop) (a b : α) : α := @ite _ p (Classical.propDecidable p) a b

/-- Dictionary built from the buyer registry: later rows overwrite earlier
ones, as when Python builds `buyers_lookup`. -/
def buyerLookup (buyers : List Buyer) (name : String) : Option Buyer :=
  (buyers.filter (fun b => b.buyer_name == name)).getLast?

/-- Dictionary built from the product catalog, later rows overwrite. -/
def prodLookup (products : List ProductInfo) (name : String) : Option ProductInfo :=
  (products.filter (fun p => p.product_description == name)).getLast?

/-- STAT-1 body for one product group: price outliers by Z-score. -/
noncomputable def priceScanGroup (zt : ℚ) (products : List ProductInfo)
    (prodDesc : String) (g : List Shipment) : List Anomaly :=
  if g.length < 3 then []
  else
    let prices := g.map (·.unit_price_usd)
    (g.zip (zscore prices)).flatMap (fun sz =>
      rIf (|sz.2| > (zt : ℝ))
        [ { anomaly_id := ""
            layer := "statistical"
            shipment_id := sz.1.shipment_id
            category := "pricing"
            sub_type := "price_outlier"
            description := prodDesc ++ ": unit_price is an outlier from the product mean."
            evidence :=
              [ ("unit_price", .num sz.1.unit_price_usd)
              , ("product_mean", .num (round2 (listMean prices)))
              , ("product_std", .rnum sz.2)
              , ("z_score", .rnum sz.2)
              , ("catalog_range", .str (match prodLookup products prodDesc with
                  | some p => toString p.price_range_min ++ " - " ++ toString p.price_range_max
                  | none => "? - ?"))
              , ("buyer", .str sz.1.buyer_name) ]
            severity := rIf (|sz.2| > 4) "critical" "high"
            recommendation := "Review pricing with the buyer. Check for under/over-invoicing."
            estimated_penalty_usd := rIf (sz.2 > 0) 2000 8000
            detection_method := "Z-score" } ]
        [])

/-- STAT-2 body for one route group: transit-time outliers. -/
noncomputable def transitScanGroup (zt : ℚ) (pol pod : String)
    (g : List Shipment) : List Anomaly :=
  if g.length < 3 then []
  else
    let days := g.map (fun s => (s.transit_days : ℚ))
    (g.zip (zscore days)).flatMap (fun sz =>
      rIf (|sz.2| > (zt : ℝ))
        [ { anomaly_id := ""
            layer := "statistical"
            shipment_id := sz.1.shipment_id
            category := "route_logistics"
            sub_type := "transit_days_outlier"
            description := "Route " ++ pol ++ " to " ++ pod ++ ": transit days outlier."
            evidence :=
              [ ("transit_days", .num (sz.1.transit_days : ℚ))
              , ("route_mean", .num (round1 (listMean days)))
              , ("route_std", .rnum sz.2)
              , ("z_score", .rnum sz.2)
              , ("route", .str (pol ++ " -> " ++ pod)) ]
            severity := rIf (|sz.2| > 4) "high" "medium"
            recommendation := "Contact freight forwarder. Verify vessel tracking. Check for detention/demurrage."
            estimated_penalty_usd := 3000
            detection_method := "Z-score" } ]
        [])

/-- STAT-3 body for one (route, container) group: freight outliers over the
rows with positive freight. -/
noncomputable def freightScanGroup (zt : ℚ) (pol pod ctype : String)
    (g : List Shipment) : List Anomaly :=
  if g.length < 3 then []
  else
    let valid := g.filter (fun s => decide (s.freight_cost_usd > 0))
    if valid.length < 3 then []
    else
      let costs := valid.map (·.freight_cost_usd)
      (valid.zip (zscore costs)).flatMap (fun sz =>
        rIf (|sz.2| > (zt : ℝ))
          [ { anomaly_id := ""
              layer := "statistical"
              shipment_id := sz.1.shipment_id
              category := "route_logistics"
              sub_type := "freight_cost_outlier"
              description := "Freight cost outlier for " ++ pol ++ " to " ++ pod ++ " (" ++ ctype ++ ")."
              evidence :=
                [ ("freight_cost", .num sz.1.freight_cost_usd)
                , ("route_avg_freight", .num (round2 (listMean costs)))
                , ("route_std", .rnum sz.2)
                , ("z_score", .rnum sz.2)
                , ("route", .str (pol ++ " -> " ++ pod))
                , ("container_type", .str ctype) ]
              severity := rIf (sz.2 > 3) "high" "medium"
              recommendation := "Verify with freight forwarder. Get 2 competitive quotes. Check for kickback arrangements."
              estimated_penalty_usd := rIf (sz.2 > 0) 5000 0
              detection_method := "Z-score" } ]
          [])

/-- STAT-4 body for one buyer group over the rows with a recorded
`days_to_payment`: credit-rating-dependent payment-delay outliers. -/
noncomputable def paymentScanGroup (zt : ℚ) (buyers : List Buyer)
    (buyer : String) (g : List Shipment) : List Anomaly :=
  if g.length < 3 then []
  else
    let days := g.filterMap (·.days_to_payment)
    let info := buyerLookup buyers buyer
    let historical_avg := match info with
      | some b => b.avg_payment_days
      | none => listMean days
    let rating := match info with
      | some b => b.credit_rating
      | none => "B"
    let threshold : ℚ := if rating = "A" then 4.5 else if rating = "B" then 3.5 else 2.5
    (g.zip (zscore days)).flatMap (fun sz =>
      rIf (|sz.2| > (zt : ℝ))
        (let d := sz.1.days_to_payment.getD 0
         rIf (sz.2 > (threshold : ℝ) ∧ d - historical_avg > 30)
          [ { anomaly_id := ""
              layer := "statistical"
              shipment_id := sz.1.shipment_id
              category := "payment"
              sub_type := "payment_delay"
              description := buyer ++ " paid late. Pattern suggests working capital stress."
              evidence :=
                [ ("days_to_payment", .num d)
                , ("buyer_historical_avg", .num historical_avg)
                , ("days_above_avg", .num (d - historical_avg))
                , ("z_score", .rnum sz.2)
                , ("buyer", .str buyer)
                , ("credit_rating", .str rating)
                , ("threshold_applied", .num threshold) ]
              severity := if rating = "B" ∨ rating = "C" then "high" else "medium"
              recommendation := "Flag the buyer for credit review. Monitor next 2-3 shipments for trend."
              estimated_penalty_usd := if rating = "A" then 2000 else 3000
              detection_method := "Z-score" } ]
          [])
        [])

/-- STAT-5 body for one buyer: monthly FOB totals, positive spikes only. -/
noncomputable def buyerVolGroup (zt : ℚ) (buyer : String)
    (months : List (String × ℚ)) : List Anomaly :=
  if months.length < 3 then []
  else
    let sums := months.map (·.2)
    (months.zip (zscore sums)).flatMap (fun mz =>
      rIf (|mz.2| > (zt : ℝ))
        (rIf (mz.2 > 0)
          [ { anomaly_id := ""
              layer := "statistical"
              shipment_id := "MULTI-" ++ buyer.take 10
              category := "volume"
              sub_type := "buyer_volume_spike"
              description := buyer ++ " monthly FOB spike in " ++ mz.1.1 ++ "."
              evidence :=
                [ ("buyer", .str buyer)
                , ("month", .str mz.1.1)
                , ("month_fob", .num mz.1.2)
                , ("buyer_avg_monthly", .num (round2 (listMean sums)))
                , ("z_score", .rnum mz.2) ]
              severity := rIf (mz.2 > 4) "critical" "high"
              recommendation := "Request end-user certificate from the buyer. Verify business justification."
              estimated_penalty_usd := 10000
              detection_method := "Z-score" } ]
          [])
        [])

/-- STAT-6 body for one country: monthly FOB totals, positive spikes only. -/
noncomputable def countryVolGroup (zt : ℚ) (country : String)
    (months : List (String × ℚ)) : List Anomaly :=
  if months.length < 3 then []
  else
    let sums := months.map (·.2)
    (months.zip (zscore sums)).flatMap (fun mz =>
      rIf (|mz.2| > (zt : ℝ))
        (rIf (mz.2 > 0)
          [ { anomaly_id := ""
              layer := "statistical"
              shipment_id := "CTRY-" ++ country.take 5 ++ "-" ++ mz.1.1
              category := "volume"
              sub_type := "country_volume_spike"
              description := "Exports to " ++ country ++ " monthly spike in " ++ mz.1.1 ++ "."
              evidence :=
                [ ("country", .str country)
                , ("month", .str mz.1.1)
                , ("month_fob", .num mz.1.2)
                , ("country_avg_monthly", .num (round2 (listMean sums)))
                , ("z_score", .rnum mz.2) ]
              severity := "high"
              recommendation := "Review all shipments to this country in this month. Check for re-export patterns."
              estimated_penalty_usd := 5000
              detection_method := "Z-score" } ]
          [])
        [])

/-- The rows of `df` with a recorded `days_to_payment`, in ascending date
order (`paid_df.sort_values('date')`; ties keep input order). -/
def paidSorted (df : List Shipment) : List Shipment :=
  (df.filter (fun s => s.days_to_payment.isSome)).insertionSort
    (fun a b => a.dateOrd ≤ b.dateOrd)

/-- The recorded days-to-payment of a buyer group, in group order. -/
def trendDays (g : List Shipment) : List ℚ := g.filterMap (·.days_to_payment)

/-- The buyer's historical baseline: registry `avg_payment_days`, defaulting
to the group mean when the buyer is not in the registry. -/
def trendHist (buyers : List Buyer) (buyer : String) (g : List Shipment) : ℚ :=
  match buyerLookup buyers buyer with
  | some b => b.avg_payment_days
  | none => listMean (trendDays g)

/-- The buyer's credit rating, `"N/A"` when unknown. -/
def trendRating (buyers : List Buyer) (buyer : String) : String :=
  match buyerLookup buyers buyer with
  | some b => b.credit_rating
  | none => "N/A"

/-- Mean days-to-payment over the last `w` rows (`group.tail(window)`). -/
def trendRecent (w : Nat) (g : List Shipment) : ℚ := listMean (lastN w (trendDays g))

/-- Mean over all prior rows (`group.iloc[:-window]`), falling back to the
historical baseline when there are none. -/
def trendOlder (buyers : List Buyer) (buyer : String) (w : Nat) (g : List Shipment) : ℚ :=
  let older := (trendDays g).take ((trendDays g).length - w)
  if older.length > 0 then listMean older else trendHist buyers buyer g

/-- `slowdown = recent_avg - older_avg`. -/
def trendSlow (buyers : List Buyer) (buyer : String) (w : Nat) (g : List Shipment) : ℚ :=
  trendRecent w g - trendOlder buyers buyer w g

/-- `slowdown_pct`, zero when the historical baseline is nonpositive. -/
def trendPct (buyers : List Buyer) (buyer : String) (w : Nat) (g : List Shipment) : ℚ :=
  if trendHist buyers buyer g > 0 then
    trendSlow buyers buyer w g / trendHist buyers buyer g * 100
  else 0

/-- The three flag conditions of `detect_payment_trend`, all required. -/
def trendCond (buyers : List Buyer) (w : Nat) (buyer : String) (g : List Shipment) : Prop :=
  trendSlow buyers buyer w g ≥ 14 ∧ trendPct buyers buyer w g > 40 ∧
    trendRecent w g > trendHist buyers buyer g * 1.5

instance (buyers : List Buyer) (w : Nat) (buyer : String) (g : List Shipment) :
    Decidable (trendCond buyers w buyer g) := by
  unfold trendCond
  infer_instance

/-- The anomaly record emitted for a deteriorating buyer. -/
def trendAnomalyFor (buyers : List Buyer) (w : Nat) (buyer : String)
    (g : List Shipment) : Anomaly :=
  { anomaly_id := ""
    layer := "statistical"
    shipment_id := "MULTI-" ++ buyer.take 10
    category := "payment"
    sub_type := "payment_deterioration_trend"
    description := buyer ++ ": Payment behavior DETERIORATING."
    evidence :=
      [ ("buyer", .str buyer)
      , ("historical_avg_days", .num (trendHist buyers buyer g))
      , ("recent_avg_days", .num (round1 (trendRecent w g)))
      , ("trend_slowdown_days", .num (round1 (trendSlow buyers buyer w g)))
      , ("trend_slowdown_pct", .num (round1 (trendPct buyers buyer w g)))
      , ("window_shipments", .num (w : ℚ))
      , ("credit_rating", .str (trendRating buyers buyer)) ]
    severity := if trendRating buyers buyer = "C" then "critical" else "high"
    recommendation := "URGENT: deteriorating payment pattern. Reduce credit terms, reduce shipment sizes, request payment guarantee."
    estimated_penalty_usd := 5000
    detection_method := "Trend analysis: recent payment pattern vs historical" }

/-- `detect_payment_trend` body for one buyer group `g` (the buyer's paid
shipments in date order): flag a sustained payment slowdown. -/
def trendForBuyer (buyers : List Buyer) (window : Nat) (buyer : String)
    (g : List Shipment) : List Anomaly :=
  if g.length < window then []
  else if trendCond buyers window buyer g then [trendAnomalyFor buyers window buyer g]
  else []

/-- `detect_payment_trend`: group the date-sorted paid rows by buyer and run
the per-buyer trend heuristic, numbering the emissions TREND-nnn. -/
def detect_payment_trend (df : List Shipment) (buyers : List Buyer)
    (window : Nat) : List Anomaly :=
  numberAnoms "TREND-"
    ((groupsBy (·.buyer_name) (paidSorted df)).flatMap
      (fun bg => trendForBuyer buyers window bg.1 bg.2))

/-! ## Aggregator / report generator (src/report_generator.py) -/

/-- Base reliability score by originating layer (`scores` dict; unknown
layers default to 0.5). -/
def layerBase (layer : String) : ℚ :=
  if layer = "rule_based" then 0.95
  else if layer = "statistical" then 0.55
  else if layer = "llm" then 0.80
  else if layer = "trend" then 0.85
  else 0.5

/-- `calculate_confidence_score`: layer base, adjusted by severity and
evidence richness, clamped to [0, 1]. -/
def calculate_confidence_score (a : Anomaly) : ℚ :=
  let base := layerBase a.layer
  let base := if a.severity = "critical" then base + 0.10
    else if a.severity = "medium" then base - 0.10 else base
  let base := if a.evidence.length ≥ 5 then base + 0.05 else base
  min 1 (max 0 base)

/-- Deduplication key: `(shipment_id, sub_type)`. -/
def dedupKey (a : Anomaly) : String × String := (a.shipment_id, a.sub_type)

/-- Layer priority used by deduplication (`priority` dict; unknown layers
default to 1). -/
def layerPriority (layer : String) : ℚ :=
  if layer = "llm" then 4
  else if layer = "trend" then 3.5
  else if layer = "statistical" then 2
  else if layer = "rule_based" then 1
  else 1

/-- One step of `deduplicate_anomalies`: insert `a` into the seen-map (an
association list in key first-seen order, as a Python dict), replacing the
entry with the same key only when `a` has strictly higher layer priority. -/
def dedupStep : List Anomaly → Anomaly → List Anomaly
  | [], a => [a]
  | b :: bs, a =>
      if dedupKey b = dedupKey a then
        (if layerPriority a.layer > layerPriority b.layer then a else b) :: bs
      else b :: dedupStep bs a

/-- `deduplicate_anomalies`: keep one anomaly per (shipment_id, sub_type). -/
def deduplicate_anomalies (as : List Anomaly) : List Anomaly :=
  as.foldl dedupStep []

/-- `severity_order` weights used for the risk score (unknown severities
default to 1). -/
def severity_weight (sev : String) : ℚ :=
  if sev = "critical" then 4
  else if sev = "high" then 3
  else if sev = "medium" then 2
  else if sev = "low" then 1
  else 1

/-- The risk score annotated onto each anomaly by `generate_anomaly_report`. -/
def risk_score (a : Anomaly) : ℚ :=
  severity_weight a.severity * 25 + min (a.estimated_penalty_usd / 1000) 25

/-- An anomaly as it appears in the final report, annotated with the two
aggregator-derived scores. -/
structure Scored where
  base : Anomaly
  confidence_score : ℚ
  risk : ℚ
deriving Inhabited

/-- Annotation pass of `generate_anomaly_report`. -/
def scoreAll (as : List Anomaly) : List Scored :=
  as.map (fun a => ⟨a, calculate_confidence_score a, risk_score a⟩)

/-- The report's anomaly list: scored anomalies sorted by risk score in
descending order (`sort(key=..., reverse=True)`, a stable sort). -/
def generate_report_anomalies (as : List Anomaly) : List Scored :=
  (scoreAll as).insertionSort (fun x y => y.risk ≤ x.risk)

/-- Synthetic aggregate-key test: `shipment_id.startswith(('MULTI-', 'CTRY-'))`. -/
def isAggregateKey (sid : String) : Bool :=
  strLead "MULTI-" sid || strLead "CTRY-" sid

/-- The numeric core of `generate_accuracy_report`. -/
structure AccuracyReport where
  planted_count : Nat
  detected_correctly : Nat
  missed : Nat
  false_positives : Nat
  precision : ℚ
  recall' : ℚ
  f1 : ℚ

/-- Shipment ids carrying a detected non-aggregate anomaly. -/
def detectedIds (anoms : List Anomaly) : Finset String :=
  ((anoms.filter (fun a => !isAggregateKey a.shipment_id)).map (·.shipment_id)).toFinset

/-- Shipment ids of the planted manifest. -/
def plantedIds (planted : List Planted) : Finset String :=
  (planted.map (·.shipment_id)).toFinset

/-- False-positive pool: non-aggregate anomaly records whose shipment id is
not planted. -/
def falsePositives (planted : List Planted) (anoms : List Anomaly) : List Anomaly :=
  anoms.filter (fun a =>
    decide (a.shipment_id ∉ plantedIds planted) && !isAggregateKey a.shipment_id)

/-- `generate_accuracy_report`: precision / recall / F1 against the planted
ground truth. -/
def generate_accuracy_report (planted : List Planted) (anoms : List Anomaly) :
    AccuracyReport :=
  let correct := plantedIds planted ∩ detectedIds anoms
  let nPlanted := planted.length
  let nDetected := correct.card
  let nMissed := (plantedIds planted \ detectedIds anoms).card
  let nFp := (falsePositives planted anoms).length
  let precision : ℚ := if nDetected + nFp > 0 then (nDetected : ℚ) / ((nDetected : ℚ) + (nFp : ℚ)) else 0
  let recall' : ℚ := if nPlanted > 0 then (nDetected : ℚ) / (nPlanted : ℚ) else 0
  let f1 : ℚ := if precision + recall' > 0 then 2 * precision * recall' / (precision + recall') else 0
  { planted_count := nPlanted
    detected_correctly := nDetected
    missed := nMissed
    false_positives := nFp
    precision := precision
    recall' := recall'
    f1 := f1 }

/-- `run_full_pipeline` anomaly list: concatenate the three layers' outputs,
deduplicate, score and sort. -/
def pipelineAnomalies (ruleAnoms statAnoms llmAnoms : List Anomaly) : List Scored :=
  generate_report_anomalies (deduplicate_anomalies (ruleAnoms ++ statAnoms ++ llmAnoms))

/-! ## External-reasoning adapter (src/llm_detector.py)

The LLM call itself is an external capability; `validate_hs_codes` is
modelled as a function of the response text. The multi-stage defensive
parsing of `extract_json_from_response` is embedded below: the Python
regexes are implemented as deterministic scanners with the same matching
semantics on the pattern class actually used. An exception escaping the
Python function is modelled as `Except.error`: in particular, strategy 3
catches only `json.JSONDecodeError`, so when the direct parse succeeds
with a value that has no `len()` (an int, float, bool or `None`, after
the dict wrap) the `print(f"... {len(results)} ...")` line raises an
uncaught `TypeError` which escapes `extract_json_from_response`; the
quote-fix strategy 4, by contrast, has a bare `except:` that swallows
the same error and falls through to manual extraction. -/

/-- A parsed JSON value (Python `json.loads` also accepts the non-standard
`NaN` and `Infinity` literals). -/
inductive JVal where
  | null
  | jbool (b : Bool)
  | num (q : ℚ)
  | nan
  | inf (positive : Bool)
  | str (s : String)
  | arr (xs : List JVal)
  | obj (fields : List (String × JVal))
deriving Inhabited

/-- JSON whitespace accepted between tokens by `json.loads`. -/
def jsonWs (c : Char) : Bool := c = ' ' || c = '\t' || c = '\n' || c = '\r'

/-- Literal-prefix consumer: `some rest` when `lit` heads `cs`. -/
def parseLit? (lit : List Char) (cs : List Char) : Option (List Char) :=
  if charsLead lit cs then some (cs.drop lit.length) else none

/-- Hex digit value. -/
def hexVal (c : Char) : Option Nat :=
  if '0' ≤ c ∧ c ≤ '9' then some (c.toNat - '0'.toNat)
  else if 'a' ≤ c ∧ c ≤ 'f' then some (c.toNat - 'a'.toNat + 10)
  else if 'A' ≤ c ∧ c ≤ 'F' then some (c.toNat - 'A'.toNat + 10)
  else none

/-- Body of a JSON string after the opening quote; strict mode: raw control
characters are rejected, only the JSON escapes are accepted. A `\uXXXX`
escape maps through `Char.ofNat` (lone surrogates degrade to NUL; surrogate
pairs are not recombined — no theorem depends on decoded string content). -/
def parseStrBody (fuel : Nat) (acc : List Char) (cs : List Char) :
    Option (String × List Char) :=
  match fuel, cs with
  | 0, _ => none
  | _, [] => none
  | Nat.succ f, c :: rest =>
      if c = '"' then some (⟨acc.reverse⟩, rest)
      else if c = '\\' then
        match rest with
        | [] => none
        | e :: rest2 =>
            if e = '"' then parseStrBody f ('"' :: acc) rest2
            else if e = '\\' then parseStrBody f ('\\' :: acc) rest2
            else if e = '/' then parseStrBody f ('/' :: acc) rest2
            else if e = 'b' then parseStrBody f ('\x08' :: acc) rest2
            else if e = 'f' then parseStrBody f ('\x0c' :: acc) rest2
            else if e = 'n' then parseStrBody f ('\n' :: acc) rest2
            else if e = 'r' then parseStrBody f ('\r' :: acc) rest2
            else if e = 't' then parseStrBody f ('\t' :: acc) rest2
            else if e = 'u' then
              match rest2 with
              | h1 :: h2 :: h3 :: h4 :: rest3 =>
                  match hexVal h1, hexVal h2, hexVal h3, hexVal h4 with
                  | some a, some b, some c', some d =>
                      parseStrBody f (Char.ofNat (((a * 16 + b) * 16 + c') * 16 + d) :: acc) rest3
                  | _, _, _, _ => none
              | _ => none
            else none
      else if c.toNat < 32 then none
      else parseStrBody f (c :: acc) rest

/-- JSON number: `-?(0|[1-9][0-9]*)(\.[0-9]+)?([eE][+-]?[0-9]+)?`. -/
def parseNum (cs : List Char) : Option (ℚ × List Char) :=
  let (sign, cs1) : ℚ × List Char := match cs with
    | '-' :: rest => (-1, rest)
    | _ => (1, cs)
  let (intDigits, cs2) := cs1.span (·.isDigit)
  if intDigits.isEmpty then none
  else if intDigits.length > 1 ∧ intDigits.head? = some '0' then none
  else
    let intVal : ℕ := intDigits.foldl (fun n c => n * 10 + (c.toNat - '0'.toNat)) 0
    let (fracVal, fracLen, cs3) : ℚ × ℕ × List Char := match cs2 with
      | '.' :: rest =>
          let (fd, rest2) := rest.span (·.isDigit)
          if fd.isEmpty then ((0 : ℚ), 0, cs2)
          else ((fd.foldl (fun n c => n * 10 + (c.toNat - '0'.toNat)) 0 : ℕ), fd.length, rest2)
      | _ => ((0 : ℚ), 0, cs2)
    let (expVal, cs4) : Option ℤ × List Char := match cs3 with
      | e :: rest =>
          if e = 'e' ∨ e = 'E' then
            let (esign, rest1) : ℤ × List Char := match rest with
              | '+' :: r => (1, r)
              | '-' :: r => (-1, r)
              | _ => (1, rest)
            let (ed, rest2) := rest1.span (·.isDigit)
            if ed.isEmpty then (none, cs3)
            else (some (esign * (ed.foldl (fun n c => n * 10 + (c.toNat - '0'.toNat)) 0 : ℕ)), rest2)
          else (none, cs3)
      | [] => (none, cs3)
    match expVal, cs4 with
    | some e, rest =>
        some (sign * ((intVal : ℚ) + fracVal / (10 : ℚ) ^ fracLen) * (10 : ℚ) ^ (e : ℤ), rest)
    | none, _ =>
        some (sign * ((intVal : ℚ) + fracVal / (10 : ℚ) ^ fracLen), cs3)

mutual

/-- Recursive-descent JSON value (fuel-indexed; fuel strictly decreases on
every call, the top level supplies more fuel than the input length). -/
def parseVal : Nat → List Char → Option (JVal × List Char)
  | 0, _ => none
  | Nat.succ f, cs =>
      let cs := cs.dropWhile jsonWs
      match cs with
      | [] => none
      | c :: rest =>
          if c = '\x7b' then parseObjTail f rest
          else if c = '[' then parseArrTail f rest
          else if c = '"' then
            (parseStrBody (rest.length + 1) [] rest).map (fun sr => (JVal.str sr.1, sr.2))
          else if c = 't' then
            (parseLit? "rue".data rest).map (fun r => (JVal.jbool true, r))
          else if c = 'f' then
            (parseLit? "alse".data rest).map (fun r => (JVal.jbool false, r))
          else if c = 'n' then
            (parseLit? "ull".data rest).map (fun r => (JVal.null, r))
          else if c = 'N' then
            (parseLit? "aN".data rest).map (fun r => (JVal.nan, r))
          else if c = 'I' then
            (parseLit? "nfinity".data rest).map (fun r => (JVal.inf true, r))
          else if c = '-' ∧ charsLead "Infinity".data rest then
            some (JVal.inf false, rest.drop 8)
          else if c = '-' ∨ c.isDigit then
            (parseNum (c :: rest)).map (fun qr => (JVal.num qr.1, qr.2))
          else none

/-- Array tail after the opening bracket. -/
def parseArrTail : Nat → List Char → Option (JVal × List Char)
  | 0, _ => none
  | Nat.succ f, cs =>
      let cs := cs.dropWhile jsonWs
      match cs with
      | ']' :: rest => some (JVal.arr [], rest)
      | _ =>
          match parseArrItems f cs with
          | some (xs, rest) => some (JVal.arr xs, rest)
          | none => none

/-- One-or-more comma-separated array items, then the closing bracket. -/
def parseArrItems : Nat → List Char → Option (List JVal × List Char)
  | 0, _ => none
  | Nat.succ f, cs =>
      match parseVal f cs with
      | none => none
      | some (v, rest) =>
          let rest := rest.dropWhile jsonWs
          match rest with
          | ',' :: rest2 =>
              match parseArrItems f rest2 with
              | some (xs, rest3) => some (v :: xs, rest3)
              | none => none
          | ']' :: rest2 => some ([v], rest2)
          | _ => none

/-- Object tail after the opening brace. -/
def parseObjTail : Nat → List Char → Option (JVal × List Char)
  | 0, _ => none
  | Nat.succ f, cs =>
      let cs := cs.dropWhile jsonWs
      match cs with
      | '\x7d' :: rest => some (JVal.obj [], rest)
      | _ =>
          match parseObjItems f cs with
          | some (xs, rest) => some (JVal.obj xs, rest)
          | none => none

/-- One-or-more `"key": value` members, then the closing brace. -/
def parseObjItems : Nat → List Char → Option (List (String × JVal) × List Char)
  | 0, _ => none
  | Nat.succ f, cs =>
      let cs := cs.dropWhile jsonWs
      match cs with
      | '"' :: rest =>
          match parseStrBody (rest.length + 1) [] rest with
          | none => none
          | some (key, rest1) =>
              let rest1 := rest1.dropWhile jsonWs
              match rest1 with
              | ':' :: rest2 =>
                  match parseVal f rest2 with
                  | none => none
                  | some (v, rest3) =>
                      let rest3 := rest3.dropWhile jsonWs
                      match rest3 with
                      | ',' :: rest4 =>
                          match parseObjItems f rest4 with
                          | some (xs, rest5) => some ((key, v) :: xs, rest5)
                          | none => none
                      | '\x7d' :: rest4 => some ([(key, v)], rest4)
                      | _ => none
              | _ => none
      | _ => none

end

/-- `json.loads`: parse one JSON document, allowing surrounding whitespace,
requiring the whole input to be consumed. -/
def json_loads (cs : List Char) : Option JVal :=
  match parseVal (cs.length * 4 + 8) cs with
  | some (v, rest) => if (rest.dropWhile jsonWs).isEmpty then some v else none
  | none => none

/-- Lazy body scan of the fenced-array regex: the shortest run ending at a
`]` that is followed by optional whitespace and a closing fence. -/
def fenceBody (fuel : Nat) (acc : List Char) (cs : List Char) : Option (List Char) :=
  match fuel, cs with
  | 0, _ => none
  | _, [] => none
  | Nat.succ f, c :: rest =>
      if c = ']' ∧ charsLead "```".data (rest.dropWhile pyIsSpace) then some acc.reverse
      else fenceBody f (c :: acc) rest

/-- Match Strategy 1's regex with the match anchored at `cs`:
an opening fence, an optional `json` tag (tried greedily first), optional
whitespace, then a lazily matched bracketed group before a closing fence. -/
def fenceAt (cs : List Char) : Option (List Char) :=
  match parseLit? "```".data cs with
  | none => none
  | some r1 =>
      let tryTail := fun (r : List Char) =>
        match r.dropWhile pyIsSpace with
        | '[' :: rest => (fenceBody (rest.length + 1) [] rest).map (fun b => '[' :: (b ++ [']']))
        | _ => none
      match (parseLit? "json".data r1).bind tryTail with
      | some g => some g
      | none => tryTail r1

/-- Leftmost match of Strategy 1's fenced-array regex (`re.findall`, first
group). -/
def fencedArray : List Char → Option (List Char)
  | [] => none
  | c :: cs =>
      match fenceAt (c :: cs) with
      | some g => some g
      | none => fencedArray cs

/-- Strategy 1 fallback: walk the ``` -separated parts, strip each, strip a
leading `json` tag, and take the first part that starts with `[`. -/
def fenceParts (parts : List String) : Option String :=
  parts.findSome? (fun part =>
    let p := pyStrip part
    let p := if strLead "json" p then pyStrip (p.drop 4) else p
    if strLead "[" p then some p else none)

/-- Strategy 2: `re.search(r'\[.*\]', clean, DOTALL)` — greedy, so the span
from the first `[` to the last `]` when that span is nonempty. -/
def bracketSlice (cs : List Char) : Option (List Char) :=
  match cs.findIdx? (· = '[') with
  | none => none
  | some i =>
      match cs.reverse.findIdx? (· = ']') with
      | none => none
      | some jr =>
          let j := cs.length - 1 - jr
          if i ≤ j then some ((cs.drop i).take (j - i + 1)) else none

/-- Suffix test of the Strategy 4 quote-fix regex lookahead
`([^"\\]*(\\.[^"\\]*)*)"[^"]*$`: after the candidate quote, a run free of
unescaped quotes, one more quote, then no quotes to the end. -/
def qSuffixOk (fuel : Nat) (cs : List Char) : Bool :=
  match fuel, cs with
  | 0, _ => false
  | _, [] => false
  | Nat.succ f, c :: rest =>
      if c = '"' then rest.all (· ≠ '"')
      else if c = '\\' then
        match rest with
        | [] => false
        | _ :: rest2 => qSuffixOk f rest2
      else qSuffixOk f rest

/-- Strategy 4 `re.sub`: escape every unescaped quote whose suffix matches
the lookahead, scanning the original text left to right. -/
def fixQuotesAux (prev : Option Char) : List Char → List Char
  | [] => []
  | c :: rest =>
      if c = '"' ∧ prev ≠ some '\\' ∧ qSuffixOk (rest.length + 1) rest then
        '\\' :: '"' :: fixQuotesAux (some c) rest
      else c :: fixQuotesAux (some c) rest

/-- Strategy 4 quote fixing. -/
def fixQuotes (cs : List Char) : List Char := fixQuotesAux none cs

/-- Try to match Strategy 5's record separator `\}\s*,?\s*\{` anchored at
`cs` (which must start with `}`), returning the remainder after the `{`. -/
def recSepAt : List Char → Option (List Char)
  | '\x7d' :: rest =>
      let r1 := rest.dropWhile pyIsSpace
      let r2 := match r1 with
        | ',' :: r => r.dropWhile pyIsSpace
        | _ => r1
      match r2 with
      | '\x7b' :: r => some r
      | _ => none
  | _ => none

/-- Strategy 5 `re.split` on the record separator. -/
def splitRecords (fuel : Nat) (acc : List Char) (cs : List Char) : List (List Char) :=
  match fuel, cs with
  | 0, _ => [acc.reverse ++ cs]
  | _, [] => [acc.reverse]
  | Nat.succ f, c :: rest =>
      match recSepAt (c :: rest) with
      | some r => acc.reverse :: splitRecords f [] r
      | none => splitRecords f (c :: acc) rest

/-- Scan for the regex `"key"\s*:\s*` anchored at `cs`; on success return
the remainder after the colon and its trailing whitespace. -/
def keyColonAt (key : List Char) (cs : List Char) : Option (List Char) :=
  match parseLit? ('"' :: (key ++ ['"'])) cs with
  | none => none
  | some r1 =>
      match (r1.dropWhile pyIsSpace) with
      | ':' :: r2 => some (r2.dropWhile pyIsSpace)
      | _ => none

/-- Leftmost match of `"key"\s*:\s*"([^"]+)"` (the shipment-id / hs-code
field patterns): a nonempty quote-free run between quotes. -/
def findStrField (key : List Char) : List Char → Option String
  | [] => none
  | c :: cs =>
      match (match keyColonAt key (c :: cs) with
        | none => none
        | some r =>
            match r with
            | '"' :: r1 =>
                let (body, r2) := r1.span (· ≠ '"')
                match body, r2 with
                | _ :: _, '"' :: _ => some (⟨body⟩ : String)
                | _, _ => none
            | _ => none) with
      | some v => some v
      | none => findStrField key cs

/-- Leftmost match of `"key"\s*:\s*"([^"]+?)"(?=,|\})` (the product /
reason / chapter field patterns): additionally the closing quote must be
followed by a comma or closing brace. -/
def findStrFieldEnd (key : List Char) : List Char → Option String
  | [] => none
  | c :: cs =>
      match (match keyColonAt key (c :: cs) with
        | none => none
        | some r =>
            match r with
            | '"' :: r1 =>
                let (body, r2) := r1.span (· ≠ '"')
                match body, r2 with
                | _ :: _, '"' :: ',' :: _ => some (⟨body⟩ : String)
                | _ :: _, '"' :: '\x7d' :: _ => some (⟨body⟩ : String)
                | _, _ => none
            | _ => none) with
      | some v => some v
      | none => findStrFieldEnd key cs

/-- Leftmost match of `"is_correct"\s*:\s*(false|true)`. -/
def findBoolField (key : List Char) : List Char → Option Bool
  | [] => none
  | c :: cs =>
      match (match keyColonAt key (c :: cs) with
        | none => none
        | some r =>
            if charsLead "false".data r then some false
            else if charsLead "true".data r then some true
            else none) with
      | some v => some v
      | none => findBoolField key cs

/-- Strategy 5: manual field-level extraction of `is_correct: false`
records. -/
def manualEntries (clean : List Char) : List JVal :=
  (splitRecords (clean.length + 1) [] clean).filterMap (fun r =>
    let r := if charsLead "\x7b".data r then r else '\x7b' :: r
    let r := if charsLead "\x7d".data r.reverse then r else r ++ ['\x7d']
    match findBoolField "is_correct".data r with
    | some false =>
        match findStrField "shipment_id".data r, findStrField "hs_code".data r,
            findStrFieldEnd "product".data r with
        | some sid, some hs, some prod =>
            some (JVal.obj
              [ ("shipment_id", .str sid)
              , ("hs_code", .str hs)
              , ("product", .str (pyStrip prod))
              , ("is_correct", .jbool false)
              , ("reason", .str (match findStrFieldEnd "reason".data r with
                  | some v => pyStrip v
                  | none => "HS code mismatch"))
              , ("correct_hs_chapter", .str (match findStrFieldEnd "correct_hs_chapter".data r with
                  | some v => pyStrip v
                  | none => "Unknown")) ])
        | _, _, _ => none
    | _ => none)

/-- Wrap a lone JSON object in a singleton list
(`if isinstance(results, dict): results = [results]`); any other value is
returned as Python returns it. -/
def pyWrapDict : JVal → JVal
  | .obj o => .arr [.obj o]
  | v => v

/-- Sized in the Python sense: `len()` works on lists, dicts and strings,
and raises `TypeError` on ints, floats, bools and `None`. -/
def lenSized : JVal → Bool
  | .arr _ => true
  | .obj _ => true
  | .str _ => true
  | _ => false

/-- `extract_json_from_response`: markdown-fence stripping, bracket-substring
search, direct parse, quote-fix reparse, then manual field extraction;
an empty array when everything fails. Strategy 3 catches only
`json.JSONDecodeError`, so a direct parse that yields an unsized value
makes `len(results)` raise an uncaught `TypeError` (`.error`), while the
same situation after the quote-fix reparse is swallowed by strategy 4's
bare `except:` and falls through to manual extraction. -/
def extract_json_from_response (response : String) : Except String JVal :=
  let clean := charsStrip response.data
  let clean :=
    if charsContain "```".data clean then
      match fencedArray clean with
      | some grp => grp
      | none =>
          match fenceParts ((⟨clean⟩ : String).splitOn "```") with
          | some p => p.data
          | none => clean
    else clean
  let clean :=
    if charsLead "[".data clean then clean
    else
      match bracketSlice clean with
      | some sl => sl
      | none => clean
  let manual : JVal :=
    let entries := manualEntries clean
    if entries.isEmpty then JVal.arr [] else JVal.arr entries
  match json_loads clean with
  | some v =>
      if lenSized (pyWrapDict v) then .ok (pyWrapDict v)
      else .error "TypeError: object of this type has no len"
  | none =>
      match json_loads (fixQuotes clean) with
      | some v =>
          if lenSized (pyWrapDict v) then .ok (pyWrapDict v) else .ok manual
      | none => .ok manual

/-- Python truthiness of a parsed JSON value (`if not results`). -/
def pyFalsy : JVal → Bool
  | .arr [] => true
  | .obj [] => true
  | .str "" => true
  | .num q => decide (q = 0)
  | .jbool b => !b
  | .null => true
  | _ => false

/-- Python `str()` of a parsed JSON value; numeric formatting is simplified
(no theorem depends on the rendering of non-string values). -/
def pyToStr : JVal → String
  | .str s => s
  | .jbool true => "True"
  | .jbool false => "False"
  | .null => "None"
  | .num q => toString q
  | .nan => "nan"
  | .inf true => "inf"
  | .inf false => "-inf"
  | .arr _ => "[...]"
  | .obj _ => "{...}"

/-- Python `dict.get` with default (last duplicate key wins). -/
def jGet (fields : List (String × JVal)) (key : String) (dflt : JVal) : JVal :=
  match (fields.filter (fun f => f.1 == key)).getLast? with
  | some f => f.2
  | none => dflt

/-- Build one HS-code anomaly record (shared by the matched-rows and
best-effort branches of `validate_hs_codes`). -/
def mkHsAnomaly (counter : Nat) (sid hs product reason chapter : String) : Anomaly :=
  { anomaly_id := "LLM-" ++ pad3 counter
    layer := "llm"
    shipment_id := sid
    category := "compliance"
    sub_type := "hs_code_mismatch"
    description := "HS " ++ hs ++ " incorrect for " ++ product ++ ". " ++ reason
    evidence :=
      [ ("hs_code_used", .str hs)
      , ("product", .str product)
      , ("llm_verdict", .str "INCORRECT")
      , ("correct_chapter", .str chapter)
      , ("llm_reason", .str reason) ]
    severity := "critical"
    recommendation := "Reclassify under " ++ chapter ++ ". File amendment."
    estimated_penalty_usd := 6000
    detection_method := "LLM: OpenRouter Aurora Alpha" }

/-- The verdict loop of `validate_hs_codes`; a non-mapping item models the
`AttributeError` Python would raise on `item.get`. -/
def buildHsAnomalies (shipments : List Shipment) (counter : Nat) :
    List JVal → Except String (List Anomaly)
  | [] => .ok []
  | item :: items =>
      match item with
      | .obj fields =>
          if pyFalsy (jGet fields "is_correct" (.jbool true)) then
            let counter := counter + 1
            let hs := pyStrip (pyToStr (jGet fields "hs_code" (.str "")))
            let product := pyStrip (pyToStr (jGet fields "product" (.str "")))
            let reason := pyToStr (jGet fields "reason" (.str ""))
            let chapter := pyToStr (jGet fields "correct_hs_chapter" (.str "Unknown"))
            let affected := shipments.filter (fun s =>
              pyStrip s.hs_code == hs && pyStrip s.product_description == product)
            let affected := if affected.isEmpty then
                shipments.filter (fun s => pyStrip s.hs_code == hs)
              else affected
            let here := if affected.isEmpty then
                [mkHsAnomaly counter (pyToStr (jGet fields "shipment_id" (.str "UNKNOWN")))
                  hs product reason chapter]
              else affected.map (fun row =>
                mkHsAnomaly counter row.shipment_id hs product reason chapter)
            match buildHsAnomalies shipments counter items with
            | .ok rest => .ok (here ++ rest)
            | .error e => .error e
          else
            buildHsAnomalies shipments counter items
      | _ => .error "AttributeError: item has no attribute get"

/-- `validate_hs_codes` as a function of the capability's response text;
`Except.error` models an uncaught Python exception. -/
def validate_hs_codes (shipments : List Shipment) (response : String) :
    Except String (List Anomaly) :=
  if strLead "[LLM" response then .ok []
  else
    match extract_json_from_response response with
    | .error e => .error e
    | .ok results =>
        if pyFalsy results then .ok []
        else
          match results with
          | .arr items => buildHsAnomalies shipments 0 items
          | .str _ => .error "AttributeError: str item has no attribute get"
          | _ => .error "TypeError: result is not iterable"

/-! ## Concrete example inputs used to instantiate the theorems -/

/-- A benign shipment: no rule check fires on it. -/
def baseShip : Shipment :=
  { shipment_id := "SHP-0001"
    dateOrd := 1
    year_month := "2025-01"
    buyer_name := "B"
    buyer_country := "X"
    product_description := "P"
    hs_code := "610910"
    quantity := 1
    unit_price_usd := 1
    total_fob_usd := 1
    freight_cost_usd := 1
    insurance_usd := 0.003
    incoterm := "FOB"
    port_of_loading := "L"
    port_of_discharge := "D"
    container_type := "20ft"
    transit_days := 10
    customs_status := "approved"
    drawback_rate_pct := 0
    drawback_amount_usd := 0
    payment_status := "pending"
    days_to_payment := none }

/-- FOB difference exactly 0.0501: the check must fire. -/
def shipFobHot : Shipment :=
  { baseShip with shipment_id := "S1", total_fob_usd := 1.0501 }

/-- FOB difference exactly 0.05: the check must not fire. -/
def shipFobCold : Shipment :=
  { baseShip with shipment_id := "S2", total_fob_usd := 1.05 }

/-- Zero insurance cost on a positive declared value: rate 0%, below the
band, yet the insurance check does not fire. -/
def shipZeroIns : Shipment :=
  { baseShip with shipment_id := "S0", total_fob_usd := 10000, insurance_usd := 0 }

/-- Buyer registry for the trend examples: a C-rated buyer with a 30-day
historical average. -/
def buyersC : List Buyer := [{ buyer_name := "GlobalBuyerX", avg_payment_days := 30, credit_rating := "C" }]

/-- Three paid shipments of that buyer, recent payments far slower than the
baseline: the trend heuristic fires. -/
def payingShip (sid : String) (d : Nat) (days : ℚ) : Shipment :=
  { baseShip with
      shipment_id := sid
      dateOrd := d
      buyer_name := "GlobalBuyerX"
      payment_status := "received"
      days_to_payment := some days }

def dfTrend : List Shipment :=
  [payingShip "T1" 1 50, payingShip "T2" 2 60, payingShip "T3" 3 70]

/-- The anomaly `detect_payment_trend dfTrend buyersC 3` emits: note its
`layer` field is `"statistical"`, not `"trend"`. -/
def trendAnom : Anomaly :=
  { anomaly_id := "TREND-001"
    layer := "statistical"
    shipment_id := "MULTI-GlobalBuye"
    category := "payment"
    sub_type := "payment_deterioration_trend"
    description := "GlobalBuyerX: Payment behavior DETERIORATING."
    evidence :=
      [ ("buyer", .str "GlobalBuyerX")
      , ("historical_avg_days", .num 30)
      , ("recent_avg_days", .num 60)
      , ("trend_slowdown_days", .num 30)
      , ("trend_slowdown_pct", .num 100)
      , ("window_shipments", .num 3)
      , ("credit_rating", .str "C") ]
    severity := "critical"
    recommendation := "URGENT: deteriorating payment pattern. Reduce credit terms, reduce shipment sizes, request payment guarantee."
    estimated_penalty_usd := 5000
    detection_method := "Trend analysis: recent payment pattern vs historical" }

/-- An anomaly shaped like a plain statistical-scan finding carrying the
same (shipment_id, sub_type) key as `trendAnom`. -/
def statTwin : Anomaly :=
  { anomaly_id := "STAT-001"
    layer := "statistical"
    shipment_id := "MULTI-GlobalBuye"
    category := "payment"
    sub_type := "payment_deterioration_trend"
    description := "statistical-scan finding with the same key"
    evidence := [("buyer", .str "GlobalBuyerX")]
    severity := "high"
    recommendation := "review"
    estimated_penalty_usd := 3000
    detection_method := "Z-score" }

/-- A rule-layer anomaly used by the deduplication and report witnesses. -/
def ruleTwin : Anomaly :=
  { statTwin with
      anomaly_id := "RULE-001"
      layer := "rule_based"
      severity := "low"
      estimated_penalty_usd := 500 }

/-- An external-reasoning-layer anomaly with the same key. -/
def llmTwin : Anomaly :=
  { statTwin with
      anomaly_id := "LLM-001"
      layer := "llm"
      severity := "critical"
      estimated_penalty_usd := 6000 }

/-- Does the anomaly's evidence mapping carry `("buyer", b)` as its first
`buyer` entry? Used to attribute trend anomalies to their buyer. -/
def evidenceBuyerIs (a : Anomaly) (b : String) : Bool :=
  match (a.evidence.filter (fun e => e.1 == "buyer")).head? with
  | some (_, .str v) => v == b
  | _ => false

/-- A planted-manifest record for the accuracy-report witness. -/
def plantedW : List Planted :=
  [{ planted_id := "PLANTED-001", shipment_id := "SHP-A", category := "pricing",
     sub_type := "fob_math_error" }]

/-- A detected-anomaly list covering the planted shipment for the
accuracy-report witness. -/
def anomsW : List Anomaly :=
  [{ statTwin with shipment_id := "SHP-A", sub_type := "price_outlier" }]

/-- The date-sorted paid rows of one buyer, as grouped by
`detect_payment_trend`. -/
def buyerGroup (df : List Shipment) (buyer : String) : List Shipment :=
  (paidSorted df).filter (fun s => decide (s.buyer_name = buyer))

/-- The anomaly the FOB check emits for `shipFobHot`. -/
def fobHotAnom : Anomaly :=
  { anomaly_id := "RULE-001"
    layer := "rule_based"
    shipment_id := "S1"
    category := "pricing"
    sub_type := "fob_math_error"
    description := "FOB mismatch: reported does not equal calculated"
    evidence :=
      [ ("reported_fob", .num shipFobHot.total_fob_usd)
      , ("quantity", .num (shipFobHot.quantity : ℚ))
      , ("unit_price", .num shipFobHot.unit_price_usd)
      , ("calculated_fob", .num (expected_fob shipFobHot))
      , ("difference", .num (fob_diff shipFobHot)) ]
    severity := "critical"
    recommendation := "Verify invoice with buyer. Correct FOB before drawback claim submission."
    estimated_penalty_usd := 5000
    detection_method := "Rule-based arithmetic/logic check" }

/-- A shipment whose insurance rate (2% of declared value) is far above the
band: the insurance check flags it as overcharged. -/
def insHotShip : Shipment :=
  { baseShip with shipment_id := "S3", insurance_usd := 0.02 }

/-! ## Shared helper lemmas -/

theorem numberFrom_countP (pre : String) (p : Anomaly → Bool)
    (hp : ∀ a i, p (setAnomalyId a i) = p a) :
    ∀ (n : Nat) (l : List Anomaly), (numberFrom pre n l).countP p = l.countP p := by
  intro n l
  induction l generalizing n with
  | nil => rfl
  | cons a t ih => simp [numberFrom, List.countP_cons, hp, ih]

theorem numberFrom_mem {pre : String} :
    ∀ {n : Nat} {l : List Anomaly} {a : Anomaly}, a ∈ numberFrom pre n l →
      ∃ b ∈ l, ∃ i, a = setAnomalyId b i := by
  intro n l
  induction l generalizing n with
  | nil => intro a ha; simp [numberFrom] at ha
  | cons b t ih =>
      intro a ha
      rcases ha with _ | ⟨_, hmem⟩
      · exact ⟨b, List.mem_cons_self b t, _, rfl⟩
      · obtain ⟨c, hc, i, hi⟩ := ih hmem
        exact ⟨c, List.mem_cons_of_mem _ hc, i, hi⟩

theorem sum_eq_zero_of_nonneg {l : List ℚ} (h : ∀ x ∈ l, 0 ≤ x) (hs : l.sum = 0) :
    ∀ x ∈ l, x = 0 := by
  induction l with
  | nil => simp
  | cons a t ih =>
      have hts : 0 ≤ t.sum := List.sum_nonneg (fun x hx => h x (List.mem_cons_of_mem _ hx))
      have ha : 0 ≤ a := h a (List.mem_cons_self a t)
      rw [List.sum_cons] at hs
      have ha0 : a = 0 := by linarith
      have ht0 : t.sum = 0 := by linarith
      intro x hx
      rcases List.mem_cons.mp hx with rfl | hx
      · exact ha0
      · exact ih (fun y hy => h y (List.mem_cons_of_mem _ hy)) ht0 x hx

theorem listMean_of_allEq {xs : List ℚ} {c : ℚ} (hne : xs ≠ []) (h : ∀ x ∈ xs, x = c) :
    listMean xs = c := by
  have hrep : xs = List.replicate xs.length c := List.eq_replicate_iff.mpr ⟨rfl, h⟩
  have hlen : (xs.length : ℚ) ≠ 0 := by
    exact_mod_cast Nat.cast_ne_zero.mpr (List.length_pos.mpr hne).ne'
  calc listMean xs = xs.sum / xs.length := rfl
    _ = (List.replicate xs.length c).sum / xs.length := by rw [← hrep]
    _ = (xs.length : ℚ) * c / xs.length := by rw [List.sum_replicate, nsmul_eq_mul]
    _ = c := by field_simp

theorem sampleVar_eq_zero_iff {xs : List ℚ} (h2 : 2 ≤ xs.length) :
    sampleVar xs = some 0 ↔ ∀ x ∈ xs, ∀ y ∈ xs, x = y := by
  have hlt : ¬ xs.length < 2 := not_lt.mpr h2
  have hden : ((xs.length : ℚ) - 1) ≠ 0 := by
    have : (2 : ℚ) ≤ (xs.length : ℚ) := by exact_mod_cast h2
    linarith
  rw [sampleVar, if_neg hlt]
  constructor
  · intro h x hx y hy
    have hv : (xs.map (fun x => (x - listMean xs) ^ 2)).sum / ((xs.length : ℚ) - 1) = 0 :=
      Option.some_injective _ h
    have hsum : (xs.map (fun x => (x - listMean xs) ^ 2)).sum = 0 := by
      rcases div_eq_zero_iff.mp hv with h0 | h0
      · exact h0
      · exact absurd h0 hden
    have hzero := sum_eq_zero_of_nonneg
      (by intro z hz; obtain ⟨w, _, rfl⟩ := List.mem_map.mp hz; positivity) hsum
    have hmean : ∀ z ∈ xs, z = listMean xs := by
      intro z hz
      have hsq := hzero _ (List.mem_map.mpr ⟨z, hz, rfl⟩)
      have hz0 : z - listMean xs = 0 := sq_eq_zero_iff.mp hsq
      linarith
    rw [hmean x hx, hmean y hy]
  · intro h
    have hne : xs ≠ [] := by
      intro hnil; rw [hnil] at h2; simp at h2
    obtain ⟨a, ha⟩ := List.exists_mem_of_ne_nil xs hne
    have hall : ∀ x ∈ xs, x = a := fun x hx => h x hx a ha
    have hmean : listMean xs = a := listMean_of_allEq hne hall
    have hsum : (xs.map (fun x => (x - listMean xs) ^ 2)).sum = 0 := by
      apply List.sum_eq_zero
      intro z hz
      obtain ⟨w, hw, rfl⟩ := List.mem_map.mp hz
      rw [hall w hw, hmean]
      ring
    rw [hsum, zero_div]

/-! ## Claim theorems -/

/-- Claim C3: for a sequence whose standard deviation is zero or undefined
(fewer than 2 elements, or all elements equal) the Z-score utility returns
zero for every element, never dividing by zero; for every other sequence it
returns (value − mean)/standard-deviation per element with a nonzero,
positive-variance standard deviation. -/
theorem C3_zscore_degenerate_safe (xs : List ℚ) :
    ((xs.length < 2 ∨ ∀ x ∈ xs, ∀ y ∈ xs, x = y) →
        zscore xs = List.replicate xs.length 0)
  ∧ (¬(xs.length < 2 ∨ ∀ x ∈ xs, ∀ y ∈ xs, x = y) →
      ∃ v : ℚ, sampleVar xs = some v ∧ 0 < v ∧ Real.sqrt v ≠ 0 ∧
        zscore xs = xs.map (fun x => ((x : ℝ) - ((listMean xs : ℚ) : ℝ)) / Real.sqrt v)) := by
  constructor
  · intro h
    rcases h with h | h
    · rw [zscore]
      rw [sampleVar, if_pos h]
    · by_cases hlen : xs.length < 2
      · rw [zscore, sampleVar, if_pos hlen]
      · have h0 : sampleVar xs = some 0 :=
          (sampleVar_eq_zero_iff (not_lt.mp hlen)).mpr h
        rw [zscore, h0]
        simp
  · intro h
    push_neg at h
    obtain ⟨hlen, hneq⟩ := h
    have h2 : 2 ≤ xs.length := hlen
    have hv : sampleVar xs =
        some ((xs.map (fun x => (x - listMean xs) ^ 2)).sum / ((xs.length : ℚ) - 1)) := by
      rw [sampleVar, if_neg (not_lt.mpr hlen)]
    set v := (xs.map (fun x => (x - listMean xs) ^ 2)).sum / ((xs.length : ℚ) - 1) with hvdef
    have hvne : v ≠ 0 := by
      intro h0
      exact absurd ((sampleVar_eq_zero_iff h2).mp (by rw [hv, h0])) (by
        obtain ⟨x, hx, y, hy, hxy⟩ := hneq
        intro hall
        exact hxy (hall x hx y hy))
    have hvnonneg : 0 ≤ v := by
      apply div_nonneg
      · apply List.sum_nonneg
        intro z hz
        obtain ⟨w, _, rfl⟩ := List.mem_map.mp hz
        positivity
      · have : (2 : ℚ) ≤ (xs.length : ℚ) := by exact_mod_cast h2
        linarith
    have hvpos : 0 < v := lt_of_le_of_ne hvnonneg (Ne.symm hvne)
    refine ⟨v, hv, hvpos, ?_, ?_⟩
    · exact (Real.sqrt_pos.mpr (by exact_mod_cast hvpos)).ne'
    · rw [zscore, hv]
      simp [hvne]

/-- Witness for C3: a constant three-element sequence yields all zeros, and
a genuinely spread two-element sequence takes the nondegenerate branch. -/
theorem C3_zscore_degenerate_safe_witness :
    zscore [5, 5, 5] = List.replicate 3 0
  ∧ ∃ v : ℚ, sampleVar [(0 : ℚ), 6] = some v ∧ 0 < v ∧ Real.sqrt v ≠ 0 ∧
      zscore [(0 : ℚ), 6] = [(0 : ℚ), 6].map
        (fun x => ((x : ℝ) - ((listMean [(0 : ℚ), 6] : ℚ) : ℝ)) / Real.sqrt v) := by
  constructor
  · exact (C3_zscore_degenerate_safe [5, 5, 5]).1 (Or.inr (by
      intro x hx y hy
      simp at hx hy
      rw [hx, hy]))
  · exact (C3_zscore_degenerate_safe [0, 6]).2 (by
      intro h
      rcases h with h | h
      · norm_num at h
      · have := h 0 (by simp) 6 (by simp)
        norm_num at this)

/-- Claim C6: every anomaly in the final report carries risk score
severity_weight × 25 + min(penalty/1000, 25) with critical=4, high=3,
medium=2, low=1, hence never exceeding 125, and the report's anomaly list
is sorted by risk score in descending order. -/
theorem C6_risk_score_and_order (as : List Anomaly) :
    (∀ x ∈ generate_report_anomalies as,
        x.risk = severity_weight x.base.severity * 25 +
          min (x.base.estimated_penalty_usd / 1000) 25
      ∧ x.risk ≤ 125)
  ∧ severity_weight "critical" = 4 ∧ severity_weight "high" = 3
  ∧ severity_weight "medium" = 2 ∧ severity_weight "low" = 1
  ∧ (generate_report_anomalies as).Pairwise (fun x y => y.risk ≤ x.risk)
  ∧ (generate_report_anomalies as).Perm (scoreAll as) := by
  have hperm : (generate_report_anomalies as).Perm (scoreAll as) :=
    List.perm_insertionSort _ _
  refine ⟨?_, by simp [severity_weight], by simp [severity_weight],
    by simp [severity_weight], by simp [severity_weight], ?_, hperm⟩
  · intro x hx
    have hx' : x ∈ scoreAll as := hperm.mem_iff.mp hx
    obtain ⟨a, _, rfl⟩ := List.mem_map.mp hx'
    constructor
    · rfl
    · have hsev : severity_weight a.severity ≤ 4 := by
        rw [severity_weight]
        split_ifs <;> norm_num
      have hmin : min (a.estimated_penalty_usd / 1000) 25 ≤ 25 := min_le_right _ _
      show risk_score a ≤ 125
      rw [risk_score]
      nlinarith
  · haveI : IsTotal Scored (fun x y => y.risk ≤ x.risk) := ⟨fun a b => le_total b.risk a.risk⟩
    haveI : IsTrans Scored (fun x y => y.risk ≤ x.risk) :=
      ⟨fun _ _ _ h1 h2 => le_trans h2 h1⟩
    exact List.sorted_insertionSort _ _

/-- Witness for C6: the single-element report of the rule-layer example
anomaly carries the formula risk score, bounded by 125. -/
theorem C6_risk_score_and_order_witness :
    (⟨ruleTwin, calculate_confidence_score ruleTwin, risk_score ruleTwin⟩ : Scored).risk
        = severity_weight ruleTwin.severity * 25 + min (ruleTwin.estimated_penalty_usd / 1000) 25
  ∧ (⟨ruleTwin, calculate_confidence_score ruleTwin, risk_score ruleTwin⟩ : Scored).risk ≤ 125 :=
  (C6_risk_score_and_order [ruleTwin]).1 _
    (by
      have : generate_report_anomalies [ruleTwin] =
          [⟨ruleTwin, calculate_confidence_score ruleTwin, risk_score ruleTwin⟩] := rfl
      rw [this]
      exact List.mem_singleton.mpr rfl)

theorem dedupStep_mem {m : List Anomaly} {a x : Anomaly} (hx : x ∈ dedupStep m a) :
    x ∈ m ∨ x = a := by
  induction m with
  | nil =>
      rw [dedupStep] at hx
      exact Or.inr (List.mem_singleton.mp hx)
  | cons b bs ih =>
      rw [dedupStep] at hx
      by_cases hk : dedupKey b = dedupKey a
      · rw [if_pos hk] at hx
        rcases List.mem_cons.mp hx with rfl | hx
        · by_cases hp : layerPriority a.layer > layerPriority b.layer
          · rw [if_pos hp]; exact Or.inr rfl
          · rw [if_neg hp]; exact Or.inl (List.mem_cons_self _ _)
        · exact Or.inl (List.mem_cons_of_mem _ hx)
      · rw [if_neg hk] at hx
        rcases List.mem_cons.mp hx with rfl | hx
        · exact Or.inl (List.mem_cons_self _ _)
        · rcases ih hx with h | h
          · exact Or.inl (List.mem_cons_of_mem _ h)
          · exact Or.inr h

theorem dedupStep_key_iff {m : List Anomaly} {a : Anomaly} {k : String × String} :
    k ∈ (dedupStep m a).map dedupKey ↔ k ∈ m.map dedupKey ∨ k = dedupKey a := by
  induction m with
  | nil => simp [dedupStep]
  | cons b bs ih =>
      rw [dedupStep]
      by_cases hk : dedupKey b = dedupKey a
      · rw [if_pos hk]
        by_cases hp : layerPriority a.layer > layerPriority b.layer
        · rw [if_pos hp]
          simp only [List.map_cons, List.mem_cons]
          constructor
          · rintro (rfl | h)
            · exact Or.inr rfl
            · exact Or.inl (Or.inr h)
          · rintro (h | h)
            · rcases h with h | h
              · exact Or.inl (h.trans hk)
              · exact Or.inr h
            · exact Or.inl h
        · rw [if_neg hp]
          simp only [List.map_cons, List.mem_cons]
          constructor
          · rintro (rfl | h)
            · exact Or.inl (Or.inl rfl)
            · exact Or.inl (Or.inr h)
          · rintro (h | rfl)
            · exact h
            · exact Or.inl hk.symm
      · rw [if_neg hk]
        simp only [List.map_cons, List.mem_cons] at *
        constructor
        · rintro (rfl | h)
          · exact Or.inl (Or.inl rfl)
          · rcases ih.mp h with h | h
            · exact Or.inl (Or.inr h)
            · exact Or.inr h
        · rintro ((rfl | h) | rfl)
          · exact Or.inl rfl
          · exact Or.inr (ih.mpr (Or.inl h))
          · exact Or.inr (ih.mpr (Or.inr rfl))

theorem dedupStep_keys_nodup {m : List Anomaly} {a : Anomaly}
    (h : (m.map dedupKey).Nodup) : ((dedupStep m a).map dedupKey).Nodup := by
  induction m with
  | nil => simp [dedupStep]
  | cons b bs ih =>
      rw [dedupStep]
      rw [List.map_cons, List.nodup_cons] at h
      by_cases hk : dedupKey b = dedupKey a
      · rw [if_pos hk]
        by_cases hp : layerPriority a.layer > layerPriority b.layer
        · rw [if_pos hp]
          rw [List.map_cons, List.nodup_cons]
          exact ⟨by rw [← hk]; exact h.1, h.2⟩
        · rw [if_neg hp]
          rw [List.map_cons, List.nodup_cons]
          exact h
      · rw [if_neg hk]
        rw [List.map_cons, List.nodup_cons]
        refine ⟨?_, ih h.2⟩
        intro hmem
        rcases dedupStep_key_iff.mp hmem with hmem | hmem
        · exact h.1 hmem
        · exact hk hmem

theorem dedupStep_dominates_new {m : List Anomaly} {a x : Anomaly}
    (hnd : (m.map dedupKey).Nodup) (hx : x ∈ dedupStep m a)
    (hkey : dedupKey x = dedupKey a) :
    layerPriority a.layer ≤ layerPriority x.layer := by
  induction m with
  | nil =>
      rw [dedupStep] at hx
      rw [List.mem_singleton.mp hx]
  | cons b bs ih =>
      rw [List.map_cons, List.nodup_cons] at hnd
      rw [dedupStep] at hx
      by_cases hk : dedupKey b = dedupKey a
      · rw [if_pos hk] at hx
        rcases List.mem_cons.mp hx with hxe | hx
        · subst hxe
          by_cases hp : layerPriority a.layer > layerPriority b.layer
          · rw [if_pos hp]
          · rw [if_neg hp]
            exact le_of_not_lt hp
        · exfalso
          apply hnd.1
          rw [hk.trans hkey.symm]
          exact List.mem_map_of_mem dedupKey hx
      · rw [if_neg hk] at hx
        rcases List.mem_cons.mp hx with hxe | hx
        · exact absurd (hxe ▸ hkey) hk
        · exact ih hnd.2 hx

theorem dedupStep_dominates_old {m : List Anomaly} {a x y : Anomaly}
    (hnd : (m.map dedupKey).Nodup) (hy : y ∈ m) (hx : x ∈ dedupStep m a)
    (hkey : dedupKey x = dedupKey y) :
    layerPriority y.layer ≤ layerPriority x.layer := by
  induction m with
  | nil => simp at hy
  | cons b bs ih =>
      rw [List.map_cons, List.nodup_cons] at hnd
      rw [dedupStep] at hx
      by_cases hk : dedupKey b = dedupKey a
      · rw [if_pos hk] at hx
        rcases List.mem_cons.mp hy with hyb | hy
        · rcases List.mem_cons.mp hx with hxe | hx
          · rw [hxe, hyb]
            by_cases hp : layerPriority a.layer > layerPriority b.layer
            · rw [if_pos hp]
              exact le_of_lt hp
            · rw [if_neg hp]
          · exfalso
            apply hnd.1
            rw [← hyb, ← hkey]
            exact List.mem_map_of_mem dedupKey hx
        · rcases List.mem_cons.mp hx with hxe | hx
          · exfalso
            apply hnd.1
            have hxk : dedupKey x = dedupKey b := by
              rw [hxe]
              by_cases hp : layerPriority a.layer > layerPriority b.layer
              · rw [if_pos hp]
                exact hk.symm
              · rw [if_neg hp]
            rw [hxk.symm.trans hkey]
            exact List.mem_map_of_mem dedupKey hy
          · have hxy : x = y := List.inj_on_of_nodup_map hnd.2 hx hy hkey
            rw [hxy]
      · rw [if_neg hk] at hx
        rcases List.mem_cons.mp hy with hyb | hy
        · rcases List.mem_cons.mp hx with hxe | hx
          · rw [hxe, hyb]
          · rcases dedupStep_key_iff.mp (List.mem_map_of_mem dedupKey hx) with h | h
            · exfalso
              apply hnd.1
              rw [← hyb, ← hkey]
              exact h
            · exact absurd (by rw [← hyb, ← hkey]; exact h) hk
        · rcases List.mem_cons.mp hx with hxe | hx
          · exfalso
            apply hnd.1
            rw [← hxe, hkey]
            exact List.mem_map_of_mem dedupKey hy
          · exact ih hnd.2 hy hx

theorem dedup_foldl_inv :
    ∀ (rest seen processed : List Anomaly),
      (seen.map dedupKey).Nodup →
      (∀ x ∈ seen, x ∈ processed) →
      (∀ b ∈ processed, dedupKey b ∈ seen.map dedupKey) →
      (∀ b ∈ processed, ∀ x ∈ seen, dedupKey x = dedupKey b →
          layerPriority b.layer ≤ layerPriority x.layer) →
      ((rest.foldl dedupStep seen).map dedupKey).Nodup
    ∧ (∀ x ∈ rest.foldl dedupStep seen, x ∈ processed ++ rest)
    ∧ (∀ b ∈ processed ++ rest, dedupKey b ∈ (rest.foldl dedupStep seen).map dedupKey)
    ∧ (∀ b ∈ processed ++ rest, ∀ x ∈ rest.foldl dedupStep seen,
        dedupKey x = dedupKey b → layerPriority b.layer ≤ layerPriority x.layer) := by
  intro rest
  induction rest with
  | nil =>
      intro seen processed h1 h2 h3 h4
      simp only [List.foldl_nil, List.append_nil]
      exact ⟨h1, h2, h3, h4⟩
  | cons a rest ih =>
      intro seen processed h1 h2 h3 h4
      have h1' : ((dedupStep seen a).map dedupKey).Nodup := dedupStep_keys_nodup h1
      have h2' : ∀ x ∈ dedupStep seen a, x ∈ processed ++ [a] := by
        intro x hx
        rcases dedupStep_mem hx with h | h
        · exact List.mem_append_left _ (h2 x h)
        · exact List.mem_append_right _ (by rw [h]; exact List.mem_singleton_self a)
      have h3' : ∀ b ∈ processed ++ [a], dedupKey b ∈ (dedupStep seen a).map dedupKey := by
        intro b hb
        rcases List.mem_append.mp hb with hb | hb
        · exact dedupStep_key_iff.mpr (Or.inl (h3 b hb))
        · rw [List.mem_singleton.mp hb]
          exact dedupStep_key_iff.mpr (Or.inr rfl)
      have h4' : ∀ b ∈ processed ++ [a], ∀ x ∈ dedupStep seen a,
          dedupKey x = dedupKey b → layerPriority b.layer ≤ layerPriority x.layer := by
        intro b hb x hx hkx
        rcases List.mem_append.mp hb with hb | hb
        · obtain ⟨y, hy, hky⟩ := List.mem_map.mp (h3 b hb)
          calc layerPriority b.layer ≤ layerPriority y.layer := h4 b hb y hy hky
            _ ≤ layerPriority x.layer :=
                dedupStep_dominates_old h1 hy hx (hkx.trans hky.symm)
        · rw [List.mem_singleton.mp hb] at hkx ⊢
          exact dedupStep_dominates_new h1 hx hkx
      have := ih (dedupStep seen a) (processed ++ [a]) h1' h2' h3' h4'
      have harr : processed ++ [a] ++ rest = processed ++ a :: rest := by
        rw [List.append_assoc, List.singleton_append]
      rw [harr] at this
      exact this


theorem trendCond_concrete : trendCond buyersC 3 "GlobalBuyerX" dfTrend := by
  have hdays : trendDays dfTrend = [50, 60, 70] := by
    simp [trendDays, dfTrend, payingShip, baseShip]
  have hlook : buyerLookup buyersC "GlobalBuyerX" =
      some { buyer_name := "GlobalBuyerX", avg_payment_days := 30, credit_rating := "C" } := by
    simp [buyerLookup, buyersC]
  constructor
  · norm_num [trendSlow, trendRecent, trendOlder, trendHist, hdays, hlook, lastN, listMean]
  constructor
  · norm_num [trendPct, trendSlow, trendRecent, trendOlder, trendHist, hdays, hlook,
      lastN, listMean]
  · norm_num [trendRecent, trendHist, hdays, hlook, lastN, listMean]

theorem trendForBuyer_concrete :
    trendForBuyer buyersC 3 "GlobalBuyerX" dfTrend = [{ trendAnom with anomaly_id := "" }] := by
  have hdays : trendDays dfTrend = [50, 60, 70] := by
    simp [trendDays, dfTrend, payingShip, baseShip]
  have hlook : buyerLookup buyersC "GlobalBuyerX" =
      some { buyer_name := "GlobalBuyerX", avg_payment_days := 30, credit_rating := "C" } := by
    simp [buyerLookup, buyersC]
  have hlen : dfTrend.length = 3 := by simp [dfTrend]
  rw [trendForBuyer, hlen, if_neg (lt_irrefl 3), if_pos trendCond_concrete]
  have hbody : trendAnomalyFor buyersC 3 "GlobalBuyerX" dfTrend =
      { trendAnom with anomaly_id := "" } := by
    norm_num [trendAnomalyFor, trendAnom, trendRating, trendHist, trendRecent, trendOlder,
      trendSlow, trendPct, hdays, hlook, lastN, listMean, round1, roundHalfEven]
    exact ⟨by decide, by decide⟩
  rw [hbody]

theorem trend_concrete : detect_payment_trend dfTrend buyersC 3 = [trendAnom] := by
  rw [detect_payment_trend]
  have hps : paidSorted dfTrend = dfTrend := by
    simp [paidSorted, dfTrend, payingShip, baseShip, List.insertionSort, List.orderedInsert]
  have hgroups : groupsBy (fun s => s.buyer_name) (paidSorted dfTrend) =
      [("GlobalBuyerX", dfTrend)] := by
    rw [hps]
    simp [groupsBy, dfTrend, payingShip, baseShip]
  rw [hgroups]
  simp only [List.flatMap_cons, List.flatMap_nil, List.append_nil]
  rw [trendForBuyer_concrete]
  rfl

theorem trend_layer_tag (df : List Shipment) (buyers : List Buyer) (w : Nat) :
    ∀ t ∈ detect_payment_trend df buyers w, t.layer = "statistical" := by
  intro t ht
  obtain ⟨b, hb, i, rfl⟩ := numberFrom_mem ht
  obtain ⟨bg, _, hbg⟩ := List.mem_flatMap.mp hb
  show b.layer = "statistical"
  rw [trendForBuyer] at hbg
  split at hbg
  · exact absurd hbg (List.not_mem_nil b)
  · split at hbg
    · rw [List.mem_singleton.mp hbg]
      rfl
    · exact absurd hbg (List.not_mem_nil b)

/-- Claim C2 (amended): deduplication keeps exactly one anomaly per
(shipment_id, sub_type) key — the key set is preserved, kept anomalies come
from the input, and each kept anomaly has maximal layer priority (llm 4 >
trend 3.5 > statistical 2 > rule_based 1 on the `layer` tag) among same-key
inputs, with the earliest kept on ties. A statistical-vs-llm pair keeps the
llm one in either order. However, the trend heuristic tags its output layer
"statistical", so a trend anomaly never outranks a plain statistical one:
on a tie the first-listed is kept. -/
theorem C2_dedup_priority_amended (as : List Anomaly) :
    ((deduplicate_anomalies as).map dedupKey).Nodup
  ∧ (∀ x ∈ deduplicate_anomalies as, x ∈ as)
  ∧ (∀ b ∈ as, dedupKey b ∈ (deduplicate_anomalies as).map dedupKey)
  ∧ (∀ b ∈ as, ∀ x ∈ deduplicate_anomalies as,
      dedupKey x = dedupKey b → layerPriority b.layer ≤ layerPriority x.layer)
  ∧ (∀ a b : Anomaly, dedupKey a = dedupKey b → a.layer = "statistical" → b.layer = "llm" →
      deduplicate_anomalies [a, b] = [b] ∧ deduplicate_anomalies [b, a] = [b])
  ∧ (∀ a b : Anomaly, dedupKey a = dedupKey b →
      layerPriority a.layer = layerPriority b.layer → deduplicate_anomalies [a, b] = [a])
  ∧ (∀ df buyers w, ∀ t ∈ detect_payment_trend df buyers w, t.layer = "statistical") := by
  have h := dedup_foldl_inv as [] [] (by simp) (by simp) (by simp) (by simp)
  rw [List.nil_append] at h
  refine ⟨h.1, h.2.1, h.2.2.1, h.2.2.2, ?_, ?_, trend_layer_tag⟩
  · intro a b hkey ha hb
    constructor
    · show dedupStep (dedupStep [] a) b = [b]
      rw [dedupStep]
      show dedupStep [a] b = [b]
      rw [dedupStep, if_pos hkey,
        if_pos (by
          rw [ha, hb]
          norm_num [layerPriority, (by decide : ¬ "statistical" = "llm"),
            (by decide : ¬ "statistical" = "trend")])]
    · show dedupStep (dedupStep [] b) a = [b]
      rw [dedupStep]
      show dedupStep [b] a = [b]
      rw [dedupStep, if_pos hkey.symm,
        if_neg (by
          rw [ha, hb]
          norm_num [layerPriority, (by decide : ¬ "statistical" = "llm"),
            (by decide : ¬ "statistical" = "trend")])]
  · intro a b hkey hprio
    show dedupStep (dedupStep [] a) b = [a]
    rw [dedupStep]
    show dedupStep [a] b = [a]
    rw [dedupStep, if_pos hkey, if_neg (by rw [← hprio]; exact lt_irrefl _)]

/-- Witness for amended C2: llm beats statistical in either order; on a
priority tie the first-listed survives; the genuine trend anomaly carries
the "statistical" tag. -/
theorem C2_dedup_priority_amended_witness :
    deduplicate_anomalies [statTwin, llmTwin] = [llmTwin]
  ∧ deduplicate_anomalies [llmTwin, statTwin] = [llmTwin]
  ∧ deduplicate_anomalies [statTwin, trendAnom] = [statTwin]
  ∧ trendAnom.layer = "statistical" := by
  obtain ⟨h1, h2⟩ := (C2_dedup_priority_amended []).2.2.2.2.1 statTwin llmTwin rfl rfl rfl
  refine ⟨h1, h2, ?_, ?_⟩
  · exact (C2_dedup_priority_amended []).2.2.2.2.2.1 statTwin trendAnom rfl rfl
  · exact (C2_dedup_priority_amended []).2.2.2.2.2.2 dfTrend buyersC 3 trendAnom
      (by rw [trend_concrete]; exact List.mem_singleton_self trendAnom)

/-- Claim C2 counterexample: the trend heuristic labels its output layer
"statistical", so on a statistical-scan-shaped anomaly followed by the
genuine trend-heuristic anomaly with the identical (shipment_id, sub_type)
key, deduplication keeps the statistical one — not the trend one as the
claim requires. -/
theorem C2_dedup_priority_counterexample :
    detect_payment_trend dfTrend buyersC 3 = [trendAnom]
  ∧ trendAnom.layer = "statistical"
  ∧ dedupKey statTwin = dedupKey trendAnom
  ∧ statTwin.layer = "statistical"
  ∧ deduplicate_anomalies [statTwin, trendAnom] = [statTwin]
  ∧ statTwin ≠ trendAnom := by
  refine ⟨trend_concrete, rfl, rfl, rfl, ?_, ?_⟩
  · show dedupStep (dedupStep [] statTwin) trendAnom = [statTwin]
    rw [dedupStep]
    show dedupStep [statTwin] trendAnom = [statTwin]
    rw [dedupStep,
      if_pos (show dedupKey statTwin = dedupKey trendAnom from rfl),
      if_neg (show ¬ layerPriority trendAnom.layer > layerPriority statTwin.layer from
        lt_irrefl _)]
  · intro h
    have := congrArg Anomaly.anomaly_id h
    simp [statTwin, trendAnom] at this

/-- Claim C5 (amended): the confidence score is the layer base plus 0.10
for critical severity, minus 0.10 for medium, plus 0.05 for an evidence
mapping of at least 5 fields, clamped to [0,1]; the bases order rule_based
0.95 > trend 0.85 > llm 0.80 > statistical 0.55. However, anomalies
produced by the trend heuristic carry the layer tag "statistical" and so
receive the lowest base 0.55, not the in-between trend base. -/
theorem C5_confidence_amended (a : Anomaly) :
    calculate_confidence_score a =
      min 1 (max 0 (layerBase a.layer
        + (if a.severity = "critical" then 0.10
            else if a.severity = "medium" then -0.10 else 0)
        + (if a.evidence.length ≥ 5 then 0.05 else 0)))
  ∧ layerBase "rule_based" = 0.95 ∧ layerBase "statistical" = 0.55
  ∧ layerBase "llm" = 0.80 ∧ layerBase "trend" = 0.85
  ∧ layerBase "statistical" < layerBase "llm"
  ∧ layerBase "llm" < layerBase "trend"
  ∧ layerBase "trend" < layerBase "rule_based"
  ∧ (∀ df buyers w, ∀ t ∈ detect_payment_trend df buyers w,
      t.layer = "statistical" ∧ layerBase t.layer = 0.55)
  ∧ 0 ≤ calculate_confidence_score a ∧ calculate_confidence_score a ≤ 1 := by
  have hbase : ∀ x : String, layerBase x = layerBase x := fun _ => rfl
  have hstr : (¬ "statistical" = "llm") ∧ (¬ "statistical" = "trend")
      ∧ (¬ "statistical" = "rule_based") ∧ (¬ "llm" = "rule_based")
      ∧ (¬ "llm" = "statistical") ∧ (¬ "trend" = "rule_based")
      ∧ (¬ "trend" = "statistical") ∧ (¬ "trend" = "llm")
      ∧ (¬ "rule_based" = "statistical") ∧ (¬ "rule_based" = "llm")
      ∧ (¬ "rule_based" = "trend") := by decide
  refine ⟨?_, rfl, ?_, ?_, ?_, ?_, ?_, ?_, ?_, ?_, ?_⟩
  · rw [calculate_confidence_score]
    split_ifs <;> ring_nf
  · norm_num [layerBase, hstr.2.2.1, hstr.1, hstr.2.1]
  · norm_num [layerBase, hstr.2.2.2.1, hstr.2.2.2.2.1]
  · norm_num [layerBase, hstr.2.2.2.2.2.1, hstr.2.2.2.2.2.2.1, hstr.2.2.2.2.2.2.2.1]
  · norm_num [layerBase, hstr.1, hstr.2.1, hstr.2.2.1, hstr.2.2.2.1, hstr.2.2.2.2.1,
      hstr.2.2.2.2.2.1, hstr.2.2.2.2.2.2.1, hstr.2.2.2.2.2.2.2.1]
  · norm_num [layerBase, hstr.1, hstr.2.1, hstr.2.2.1, hstr.2.2.2.1, hstr.2.2.2.2.1,
      hstr.2.2.2.2.2.1, hstr.2.2.2.2.2.2.1, hstr.2.2.2.2.2.2.2.1]
  · norm_num [layerBase, hstr.1, hstr.2.1, hstr.2.2.1, hstr.2.2.2.1, hstr.2.2.2.2.1,
      hstr.2.2.2.2.2.1, hstr.2.2.2.2.2.2.1, hstr.2.2.2.2.2.2.2.1]
  · intro df buyers w t ht
    have hl := trend_layer_tag df buyers w t ht
    refine ⟨hl, ?_⟩
    rw [hl]
    norm_num [layerBase, hstr.1, hstr.2.1, hstr.2.2.1]
  · rw [calculate_confidence_score]
    exact le_min (by norm_num) (le_max_left 0 _)
  · rw [calculate_confidence_score]
    exact min_le_left 1 _

/-- Witness for amended C5: the concrete trend anomaly is tagged
"statistical" with base 0.55, and its confidence follows the clamped
formula. -/
theorem C5_confidence_amended_witness :
    trendAnom.layer = "statistical" ∧ layerBase trendAnom.layer = 0.55
  ∧ calculate_confidence_score trendAnom =
      min 1 (max 0 (layerBase trendAnom.layer
        + (if trendAnom.severity = "critical" then 0.10
            else if trendAnom.severity = "medium" then -0.10 else 0)
        + (if trendAnom.evidence.length ≥ 5 then 0.05 else 0))) := by
  obtain ⟨h1, h2⟩ := (C5_confidence_amended trendAnom).2.2.2.2.2.2.2.2.1 dfTrend buyersC 3
    trendAnom (by rw [trend_concrete]; exact List.mem_singleton_self trendAnom)
  exact ⟨h1, by rw [h1] at h2 ⊢; exact h2, (C5_confidence_amended trendAnom).1⟩

/-- Claim C5 counterexample: the concrete trend-heuristic anomaly (critical
severity, 7 evidence fields) receives confidence 0.55 + 0.10 + 0.05 = 0.70
from the statistical base, whereas the claimed in-between trend base 0.85
would give the clamped value 1. -/
theorem C5_confidence_counterexample :
    detect_payment_trend dfTrend buyersC 3 = [trendAnom]
  ∧ trendAnom.severity = "critical"
  ∧ trendAnom.evidence.length = 7
  ∧ calculate_confidence_score trendAnom = 0.70
  ∧ min 1 (max 0 (layerBase "trend" + 0.10 + 0.05)) = 1
  ∧ (0.70 : ℚ) ≠ 1 := by
  have hstr : (¬ "statistical" = "rule_based") ∧ (¬ "critical" = "medium")
      ∧ (¬ "trend" = "rule_based") ∧ (¬ "trend" = "statistical")
      ∧ (¬ "trend" = "llm") := by decide
  refine ⟨trend_concrete, rfl, rfl, ?_, ?_, by norm_num⟩
  · show calculate_confidence_score trendAnom = 0.70
    rw [calculate_confidence_score]
    have h1 : layerBase trendAnom.layer = 0.55 := by
      show layerBase "statistical" = 0.55
      norm_num [layerBase, hstr.1, (by decide : ¬ "statistical" = "llm"),
        (by decide : ¬ "statistical" = "trend")]
    have h2 : trendAnom.severity = "critical" := rfl
    have h3 : trendAnom.evidence.length = 7 := rfl
    rw [h1, if_pos h2, if_pos (by rw [h3]; norm_num)]
    rw [max_eq_right (by norm_num), min_eq_right (by norm_num)]
    norm_num
  · have hb : layerBase "trend" = 0.85 := by
      norm_num [layerBase, hstr.2.2.1, hstr.2.2.2.1, hstr.2.2.2.2]
    rw [hb]
    rw [max_eq_right (by norm_num), min_eq_left (by norm_num)]

theorem charsLead_self_append (xs ys : List Char) : charsLead xs (xs ++ ys) = true := by
  induction xs with
  | nil => rfl
  | cons c cs ih => simp [charsLead, ih]

theorem countP_flatMap {α : Type} (p : Anomaly → Bool) (f : α → List Anomaly) :
    ∀ L : List α, (L.flatMap f).countP p = (L.map (fun x => (f x).countP p)).sum := by
  intro L
  induction L with
  | nil => rfl
  | cons x L ih => simp [List.flatMap_cons, List.countP_append, ih]

theorem evidenceBuyerIs_trendAnomalyFor (buyers : List Buyer) (w : Nat)
    (b' buyer : String) (g : List Shipment) :
    evidenceBuyerIs (trendAnomalyFor buyers w b' g) buyer = (b' == buyer) := rfl

theorem trend_countP_aux (buyers : List Buyer) (buyer : String) :
    ∀ L : List (String × List Shipment), (L.map Prod.fst).Nodup →
      (L.flatMap (fun bg => trendForBuyer buyers 3 bg.1 bg.2)).countP
          (fun a => evidenceBuyerIs a buyer)
        = if ∃ bg ∈ L, bg.1 = buyer ∧ 3 ≤ bg.2.length ∧ trendCond buyers 3 buyer bg.2
          then 1 else 0 := by
  intro L
  induction L with
  | nil => simp
  | cons bg L ih =>
      intro hnd
      rw [List.map_cons, List.nodup_cons] at hnd
      rw [List.flatMap_cons, List.countP_append, ih hnd.2]
      by_cases hb : bg.1 = buyer
      · have hnotL : ¬ ∃ bg' ∈ L, bg'.1 = buyer ∧ 3 ≤ bg'.2.length ∧
            trendCond buyers 3 buyer bg'.2 := by
          rintro ⟨bg', hmem, hfst, -, -⟩
          exact hnd.1 (hb ▸ hfst ▸ List.mem_map.mpr ⟨bg', hmem, rfl⟩)
        rw [if_neg hnotL]
        have hhead : (trendForBuyer buyers 3 bg.1 bg.2).countP
            (fun a => evidenceBuyerIs a buyer)
            = if 3 ≤ bg.2.length ∧ trendCond buyers 3 buyer bg.2 then 1 else 0 := by
          rw [trendForBuyer]
          by_cases hlen : bg.2.length < 3
          · rw [if_pos hlen, if_neg (fun hc => absurd hc.1 (not_le.mpr hlen))]
            rfl
          · rw [if_neg hlen, hb]
            by_cases hc : trendCond buyers 3 buyer bg.2
            · rw [if_pos hc, if_pos ⟨not_lt.mp hlen, hc⟩]
              rw [List.countP_cons, List.countP_nil]
              rw [evidenceBuyerIs_trendAnomalyFor]
              simp
            · rw [if_neg hc, if_neg (fun hand => absurd hand.2 hc)]
              rfl
        rw [hhead]
        by_cases hcond : 3 ≤ bg.2.length ∧ trendCond buyers 3 buyer bg.2
        · rw [if_pos hcond,
            if_pos ⟨bg, List.mem_cons_self bg L, hb, hcond.1, hcond.2⟩]
        · rw [if_neg hcond, if_neg ?_]
          rintro ⟨bg', hmem, hfst, h3, hc⟩
          rcases List.mem_cons.mp hmem with heq | hmem
          · subst heq
            exact hcond ⟨h3, hc⟩
          · exact hnd.1 (hb ▸ hfst ▸ List.mem_map.mpr ⟨bg', hmem, rfl⟩)
      · have hhead : (trendForBuyer buyers 3 bg.1 bg.2).countP
            (fun a => evidenceBuyerIs a buyer) = 0 := by
          rw [trendForBuyer]
          split
          · rfl
          · split
            · rw [List.countP_cons, List.countP_nil]
              rw [evidenceBuyerIs_trendAnomalyFor]
              simp [hb]
            · rfl
        rw [hhead]
        have hiff : (∃ bg' ∈ bg :: L, bg'.1 = buyer ∧ 3 ≤ bg'.2.length ∧
              trendCond buyers 3 buyer bg'.2)
            ↔ (∃ bg' ∈ L, bg'.1 = buyer ∧ 3 ≤ bg'.2.length ∧
              trendCond buyers 3 buyer bg'.2) := by
          constructor
          · rintro ⟨bg', hmem, hfst, h3, hc⟩
            rcases List.mem_cons.mp hmem with hg | hg
            · exact absurd (hg ▸ hfst) hb
            · exact ⟨bg', hg, hfst, h3, hc⟩
          · rintro ⟨bg', hg, hfst, h3, hc⟩
            exact ⟨bg', List.mem_cons_of_mem _ hg, hfst, h3, hc⟩
        by_cases hex : ∃ bg' ∈ L, bg'.1 = buyer ∧ 3 ≤ bg'.2.length ∧
            trendCond buyers 3 buyer bg'.2
        · rw [if_pos hex, if_pos (hiff.mpr hex)]
        · rw [if_neg hex, if_neg (fun h => hex (hiff.mp h))]

theorem groupsBy_fst (k : Shipment → String) (xs : List Shipment) :
    (groupsBy k xs).map Prod.fst = (xs.map k).dedup := by
  rw [groupsBy, List.map_map]
  exact List.map_id _

theorem groupsBy_mem_iff (k : Shipment → String) (xs : List Shipment)
    (key : String) (g : List Shipment) :
    (key, g) ∈ groupsBy k xs ↔
      key ∈ (xs.map k).dedup ∧ g = xs.filter (fun x => decide (k x = key)) := by
  rw [groupsBy]
  constructor
  · intro h
    obtain ⟨a, ha, heq⟩ := List.mem_map.mp h
    have h1 : a = key := congrArg Prod.fst heq
    subst h1
    exact ⟨ha, (congrArg Prod.snd heq).symm⟩
  · rintro ⟨h1, rfl⟩
    exact List.mem_map.mpr ⟨key, h1, rfl⟩

/-- Claim C7: for every buyer group of at least 3 paid shipments the trend
heuristic emits exactly one payment_deterioration_trend anomaly keyed to
the synthetic MULTI- buyer aggregate id iff the recent-window mean exceeds
the prior mean by at least 14 days, that excess is more than 40% of the
positive historical baseline, and the recent mean exceeds 1.5× the
baseline; groups with fewer paid shipments than the window emit nothing,
and across a whole dataset each buyer yields at most the one anomaly. -/
theorem C7_payment_trend_heuristic (buyers : List Buyer) (buyer : String)
    (g : List Shipment) :
    (g.length < 3 → trendForBuyer buyers 3 buyer g = [])
  ∧ (3 ≤ g.length → 0 < trendHist buyers buyer g →
      (trendForBuyer buyers 3 buyer g ≠ [] ↔
        (trendSlow buyers buyer 3 g ≥ 14
          ∧ trendSlow buyers buyer 3 g > 40 / 100 * trendHist buyers buyer g
          ∧ trendRecent 3 g > trendHist buyers buyer g * 1.5)))
  ∧ (trendForBuyer buyers 3 buyer g).length ≤ 1
  ∧ (∀ a ∈ trendForBuyer buyers 3 buyer g,
      a.sub_type = "payment_deterioration_trend"
      ∧ a.shipment_id = "MULTI-" ++ buyer.take 10
      ∧ strLead "MULTI-" a.shipment_id = true)
  ∧ (∀ df : List Shipment,
      (detect_payment_trend df buyers 3).countP (fun a => evidenceBuyerIs a buyer) =
        if buyer ∈ (paidSorted df).map (fun s => s.buyer_name)
            ∧ 3 ≤ (buyerGroup df buyer).length
            ∧ trendCond buyers 3 buyer (buyerGroup df buyer)
          then 1 else 0) := by
  refine ⟨?_, ?_, ?_, ?_, ?_⟩
  · intro h
    rw [trendForBuyer, if_pos h]
  · intro hlen hh
    have hpct : trendPct buyers buyer 3 g > 40 ↔
        trendSlow buyers buyer 3 g > 40 / 100 * trendHist buyers buyer g := by
      rw [trendPct, if_pos hh, gt_iff_lt, div_mul_eq_mul_div, lt_div_iff₀ hh, gt_iff_lt]
      constructor <;> intro h <;> linarith
    rw [trendForBuyer, if_neg (not_lt.mpr hlen)]
    by_cases hc : trendCond buyers 3 buyer g
    · rw [if_pos hc]
      exact iff_of_true (by simp) ⟨hc.1, hpct.mp hc.2.1, hc.2.2⟩
    · rw [if_neg hc]
      refine iff_of_false (by simp) ?_
      rintro ⟨h1, h2, h3⟩
      exact hc ⟨h1, hpct.mpr h2, h3⟩
  · rw [trendForBuyer]
    split_ifs <;> simp
  · intro a ha
    rw [trendForBuyer] at ha
    split at ha
    · exact absurd ha (List.not_mem_nil a)
    · split at ha
      · rw [List.mem_singleton.mp ha]
        refine ⟨rfl, rfl, ?_⟩
        show charsLead "MULTI-".data ("MULTI-" ++ buyer.take 10).data = true
        rw [String.data_append]
        exact charsLead_self_append _ _
      · exact absurd ha (List.not_mem_nil a)
  · intro df
    rw [detect_payment_trend, numberAnoms,
      numberFrom_countP "TREND-" (fun a => evidenceBuyerIs a buyer) (fun a i => rfl)]
    rw [trend_countP_aux buyers buyer _ (by
      rw [groupsBy_fst]
      exact List.nodup_dedup _)]
    have hiff : (∃ bg ∈ groupsBy (fun s => s.buyer_name) (paidSorted df),
          bg.1 = buyer ∧ 3 ≤ bg.2.length ∧ trendCond buyers 3 buyer bg.2)
        ↔ (buyer ∈ (paidSorted df).map (fun s => s.buyer_name)
            ∧ 3 ≤ (buyerGroup df buyer).length
            ∧ trendCond buyers 3 buyer (buyerGroup df buyer)) := by
      constructor
      · rintro ⟨bg, hmem, hfst, h3, hc⟩
        obtain ⟨bg1, bg2⟩ := bg
        subst hfst
        obtain ⟨hkey, hgrp⟩ := (groupsBy_mem_iff _ _ _ _).mp hmem
        rw [← List.mem_dedup]
        subst hgrp
        exact ⟨hkey, h3, hc⟩
      · rintro ⟨hkey, h3, hc⟩
        refine ⟨(buyer, buyerGroup df buyer), ?_, rfl, h3, hc⟩
        exact (groupsBy_mem_iff _ _ _ _).mpr ⟨List.mem_dedup.mpr hkey, rfl⟩
    by_cases hex : ∃ bg ∈ groupsBy (fun s => s.buyer_name) (paidSorted df),
        bg.1 = buyer ∧ 3 ≤ bg.2.length ∧ trendCond buyers 3 buyer bg.2
    · rw [if_pos hex, if_pos (hiff.mp hex)]
    · rw [if_neg hex, if_neg (fun h => hex (hiff.mpr h))]

/-- Witness for C7: a single-shipment group emits nothing; the concrete
deteriorating buyer fires the heuristic, and across the dataset exactly one
trend anomaly is attributed to that buyer. -/
theorem C7_payment_trend_heuristic_witness :
    trendForBuyer buyersC 3 "GlobalBuyerX" [payingShip "T1" 1 50] = []
  ∧ trendForBuyer buyersC 3 "GlobalBuyerX" dfTrend ≠ []
  ∧ (detect_payment_trend dfTrend buyersC 3).countP
      (fun a => evidenceBuyerIs a "GlobalBuyerX") = 1 := by
  have hdays : trendDays dfTrend = [50, 60, 70] := by
    simp [trendDays, dfTrend, payingShip, baseShip]
  have hlook : buyerLookup buyersC "GlobalBuyerX" =
      some { buyer_name := "GlobalBuyerX", avg_payment_days := 30, credit_rating := "C" } := by
    simp [buyerLookup, buyersC]
  have hh : (0 : ℚ) < trendHist buyersC "GlobalBuyerX" dfTrend := by
    norm_num [trendHist, hlook]
  have hps : paidSorted dfTrend = dfTrend := by
    simp [paidSorted, dfTrend, payingShip, baseShip, List.insertionSort, List.orderedInsert]
  have hbg : buyerGroup dfTrend "GlobalBuyerX" = dfTrend := by
    rw [buyerGroup, hps]
    simp [dfTrend, payingShip, baseShip]
  refine ⟨?_, ?_, ?_⟩
  · exact (C7_payment_trend_heuristic buyersC "GlobalBuyerX" _).1 (by simp)
  · refine ((C7_payment_trend_heuristic buyersC "GlobalBuyerX" dfTrend).2.1
      (by simp [dfTrend]) hh).mpr ?_
    refine ⟨trendCond_concrete.1, ?_, trendCond_concrete.2.2⟩
    norm_num [trendSlow, trendRecent, trendOlder, trendHist, hdays, hlook, lastN, listMean]
  · rw [(C7_payment_trend_heuristic buyersC "GlobalBuyerX" dfTrend).2.2.2.2 dfTrend]
    have hcond : "GlobalBuyerX" ∈ (paidSorted dfTrend).map (fun s => s.buyer_name)
        ∧ 3 ≤ (buyerGroup dfTrend "GlobalBuyerX").length
        ∧ trendCond buyersC 3 "GlobalBuyerX" (buyerGroup dfTrend "GlobalBuyerX") := by
      refine ⟨?_, ?_, ?_⟩
      · rw [hps]
        simp [dfTrend, payingShip, baseShip]
      · rw [hbg]
        simp [dfTrend]
      · rw [hbg]
        exact trendCond_concrete
    rw [if_pos hcond]

theorem fobCheck_mem {df : List Shipment} {a : Anomaly} (h : a ∈ fobCheck df) :
    a.sub_type = "fob_math_error" ∧ a.severity = "critical"
  ∧ a.estimated_penalty_usd = 5000 ∧ a.layer = "rule_based" := by
  obtain ⟨t, _, rfl⟩ := List.mem_map.mp h
  exact ⟨rfl, rfl, rfl, rfl⟩

theorem drawbackCheck_sub {df : List Shipment} {a : Anomaly} (h : a ∈ drawbackCheck df) :
    a.sub_type = "drawback_on_rejected" := by
  obtain ⟨t, _, rfl⟩ := List.mem_map.mp h
  rfl

theorem receivedNullCheck_sub {df : List Shipment} {a : Anomaly}
    (h : a ∈ receivedNullCheck df) : a.sub_type = "received_null_days" := by
  obtain ⟨t, _, rfl⟩ := List.mem_map.mp h
  rfl

theorem cifCheck_sub {df : List Shipment} {a : Anomaly} (h : a ∈ cifCheck df) :
    a.sub_type = "cif_zero_freight" := by
  obtain ⟨t, _, rfl⟩ := List.mem_map.mp h
  rfl

theorem insuranceCheck_mem {df : List Shipment} {a : Anomaly} (h : a ∈ insuranceCheck df) :
    a.sub_type = "insurance_rate_error" ∧ a.layer = "rule_based"
  ∧ (a.severity = "medium" ∨ a.severity = "low") := by
  obtain ⟨t, _, rfl⟩ := List.mem_map.mp h
  refine ⟨rfl, rfl, ?_⟩
  by_cases hr : insurance_rate t > 0.8
  · left
    show (if insurance_rate t > 0.8 then "medium" else "low") = "medium"
    rw [if_pos hr]
  · right
    show (if insurance_rate t > 0.8 then "medium" else "low") = "low"
    rw [if_neg hr]

theorem mem_run_rule_checks {df : List Shipment} {a : Anomaly}
    (ha : a ∈ run_rule_checks df) :
    ∃ b, (b ∈ fobCheck df ∨ b ∈ drawbackCheck df ∨ b ∈ receivedNullCheck df
        ∨ b ∈ cifCheck df ∨ b ∈ insuranceCheck df) ∧ ∃ i, a = setAnomalyId b i := by
  rw [run_rule_checks, numberAnoms] at ha
  obtain ⟨b, hb, i, rfl⟩ := numberFrom_mem ha
  simp only [List.mem_append] at hb
  exact ⟨b, by tauto, i, rfl⟩


theorem countP_zero_of_other {l : List Anomaly} {other sub : String} (q : Anomaly → Bool)
    (hsub : ∀ a ∈ l, a.sub_type = other) (hne : (other == sub) = false) :
    l.countP (fun a => a.sub_type == sub && q a) = 0 := by
  rw [List.countP_eq_zero]
  intro a hmem
  rw [hsub a hmem, hne, Bool.false_and]
  exact Bool.false_ne_true

theorem countP_ext {α : Type} {l : List α} {p q : α → Bool}
    (h : ∀ a ∈ l, p a = q a) : l.countP p = l.countP q := by
  induction l with
  | nil => rfl
  | cons a t ih =>
      rw [List.countP_cons, List.countP_cons, h a (List.mem_cons_self a t),
        ih (fun b hb => h b (List.mem_cons_of_mem _ hb))]

/-- Claim C1: the FOB-consistency check emits one critical 5000-penalty
"fob_math_error" anomaly per shipment row exactly when the absolute
difference between the declared total and the 2-decimal-rounded
quantity × unit price strictly exceeds 0.05; a difference of exactly 0.05
does not fire and one of 0.0501 does. -/
theorem C1_fob_consistency (df : List Shipment) (s : Shipment) :
    ((run_rule_checks df).countP
        (fun a => a.sub_type == "fob_math_error" && a.shipment_id == s.shipment_id)
      = df.countP (fun t => t.shipment_id == s.shipment_id && decide (fob_diff t > 0.05)))
  ∧ (fobFires s = true ↔ fob_diff s > 0.05)
  ∧ (fob_diff s = 0.05 → fobFires s = false)
  ∧ (fob_diff s = 0.0501 → fobFires s = true)
  ∧ (∀ a ∈ run_rule_checks df, a.sub_type = "fob_math_error" →
      a.severity = "critical" ∧ a.estimated_penalty_usd = 5000 ∧ a.layer = "rule_based") := by
  refine ⟨?_, ?_, ?_, ?_, ?_⟩
  · rw [run_rule_checks, numberAnoms, numberFrom_countP "RULE-"
      (fun a => a.sub_type == "fob_math_error" && a.shipment_id == s.shipment_id)
      (fun a i => rfl)]
    rw [List.countP_append, List.countP_append, List.countP_append, List.countP_append]
    rw [countP_zero_of_other _ (fun a h => drawbackCheck_sub h) (by decide),
      countP_zero_of_other _ (fun a h => receivedNullCheck_sub h) (by decide),
      countP_zero_of_other _ (fun a h => cifCheck_sub h) (by decide),
      countP_zero_of_other _ (fun a h => (insuranceCheck_mem h).1) (by decide)]
    rw [fobCheck, List.countP_map, List.countP_filter]
    simp only [Nat.add_zero]
    apply countP_ext
    intro t _
    show ((("fob_math_error" == "fob_math_error") && (t.shipment_id == s.shipment_id))
        && fobFires t)
      = (t.shipment_id == s.shipment_id && decide (fob_diff t > 0.05))
    rw [show (("fob_math_error" : String) == "fob_math_error") = true from by decide,
      Bool.true_and]
    rfl
  · rw [fobFires]
    exact ⟨of_decide_eq_true, decide_eq_true⟩
  · intro h
    rw [fobFires, h]
    norm_num
  · intro h
    rw [fobFires, h]
    norm_num
  · intro a ha hsub
    obtain ⟨b, hb, i, rfl⟩ := mem_run_rule_checks ha
    have hsub' : b.sub_type = "fob_math_error" := hsub
    rcases hb with hb | hb | hb | hb | hb
    · obtain ⟨-, h2, h3, h4⟩ := fobCheck_mem hb
      exact ⟨h2, h3, h4⟩
    · exact absurd (drawbackCheck_sub hb ▸ hsub') (by decide)
    · exact absurd (receivedNullCheck_sub hb ▸ hsub') (by decide)
    · exact absurd (cifCheck_sub hb ▸ hsub') (by decide)
    · exact absurd ((insuranceCheck_mem hb).1 ▸ hsub') (by decide)

/-- Witness for C1: a shipment with difference exactly 0.05 does not fire,
one with 0.0501 fires, and the emitted anomaly is critical with penalty
5000 on the rule layer. -/
theorem C1_fob_consistency_witness :
    fobFires shipFobCold = false
  ∧ fobFires shipFobHot = true
  ∧ fobHotAnom.severity = "critical" ∧ fobHotAnom.estimated_penalty_usd = 5000
  ∧ fobHotAnom.layer = "rule_based" := by
  have hcold : fob_diff shipFobCold = 0.05 := by
    norm_num [fob_diff, expected_fob, round2, roundHalfEven, shipFobCold, baseShip]
  have hhot : fob_diff shipFobHot = 0.0501 := by
    norm_num [fob_diff, expected_fob, round2, roundHalfEven, shipFobHot, baseShip]
  have hfires : fobFires shipFobHot = true := (C1_fob_consistency [] shipFobHot).2.2.2.1 hhot
  have hfc : fobCheck [shipFobHot] = [{ fobHotAnom with anomaly_id := "" }] := by
    rw [fobCheck]
    rw [show List.filter fobFires [shipFobHot] = [shipFobHot] from by
      rw [List.filter_cons_of_pos hfires, List.filter_nil]]
    rfl
  have hmem : fobHotAnom ∈ run_rule_checks [shipFobHot] := by
    rw [run_rule_checks, numberAnoms, hfc]
    rw [List.cons_append]
    show fobHotAnom ∈ setAnomalyId { fobHotAnom with anomaly_id := "" } ("RULE-" ++ pad3 1)
      :: numberFrom "RULE-" 2 _
    exact List.mem_cons_self _ _
  have h5 := (C1_fob_consistency [shipFobHot] shipFobHot).2.2.2.2 fobHotAnom hmem rfl
  exact ⟨(C1_fob_consistency [] shipFobCold).2.2.1 hcold, hfires, h5.1, h5.2.1, h5.2.2⟩

theorem countP_zero_sev {l : List Anomaly} {other sub : String} (q r : Anomaly → Bool)
    (hsub : ∀ a ∈ l, a.sub_type = other) (hne : (other == sub) = false) :
    l.countP (fun a => (a.sub_type == sub && q a) && r a) = 0 := by
  rw [List.countP_eq_zero]
  intro a hmem
  rw [hsub a hmem, hne, Bool.false_and, Bool.false_and]
  exact Bool.false_ne_true

theorem insuranceFires_zero_ins {s : Shipment} (h : s.insurance_usd = 0) :
    insuranceFires s = false := by
  have hr : insurance_rate s = 0 := by
    rw [insurance_rate, h, zero_div, zero_mul]
  have h1 : ¬ ((0 : ℚ) > 0.8) := by norm_num
  have h2 : ¬ ((0 : ℚ) > 0) := by norm_num
  rw [insuranceFires, hr, h]
  simp [h1, h2]

/-- Claim C8 (amended): the insurance-rate check runs only on rows with
positive declared value and flags exactly those whose rate
insurance/value×100 is above 0.8 or below 0.05 with *positive* insurance
cost; it labels over-band rows severity medium and under-band rows low.
Zero-insurance shipments (rate 0%, below the band) are never flagged, and
rows with nonpositive declared value are skipped. -/
theorem C8_insurance_band_amended (df : List Shipment) (s : Shipment) :
    ((run_rule_checks df).countP
        (fun a => a.sub_type == "insurance_rate_error" && a.shipment_id == s.shipment_id)
      = df.countP (fun t => t.shipment_id == s.shipment_id && insuranceFires t))
  ∧ (insuranceFires s = true ↔
      (s.total_fob_usd > 0
        ∧ (insurance_rate s > 0.8 ∨ (insurance_rate s < 0.05 ∧ s.insurance_usd > 0))))
  ∧ (s.insurance_usd = 0 → insuranceFires s = false)
  ∧ (s.total_fob_usd ≤ 0 → insuranceFires s = false)
  ∧ ((run_rule_checks df).countP
        (fun a => (a.sub_type == "insurance_rate_error" && a.shipment_id == s.shipment_id)
          && a.severity == "medium")
      = df.countP (fun t => (t.shipment_id == s.shipment_id && insuranceFires t)
          && decide (insurance_rate t > 0.8)))
  ∧ ((run_rule_checks df).countP
        (fun a => (a.sub_type == "insurance_rate_error" && a.shipment_id == s.shipment_id)
          && a.severity == "low")
      = df.countP (fun t => (t.shipment_id == s.shipment_id && insuranceFires t)
          && !decide (insurance_rate t > 0.8)))
  ∧ (∀ a ∈ run_rule_checks df, a.sub_type = "insurance_rate_error" →
      a.layer = "rule_based" ∧ (a.severity = "medium" ∨ a.severity = "low")) := by
  refine ⟨?_, ?_, insuranceFires_zero_ins, ?_, ?_, ?_, ?_⟩
  · rw [run_rule_checks, numberAnoms, numberFrom_countP "RULE-"
      (fun a => a.sub_type == "insurance_rate_error" && a.shipment_id == s.shipment_id)
      (fun a i => rfl)]
    rw [List.countP_append, List.countP_append, List.countP_append, List.countP_append]
    rw [countP_zero_of_other _ (fun a h => (fobCheck_mem h).1) (by decide),
      countP_zero_of_other _ (fun a h => drawbackCheck_sub h) (by decide),
      countP_zero_of_other _ (fun a h => receivedNullCheck_sub h) (by decide),
      countP_zero_of_other _ (fun a h => cifCheck_sub h) (by decide)]
    rw [insuranceCheck, List.countP_map, List.countP_filter]
    simp only [Nat.zero_add]
    apply countP_ext
    intro t _
    show ((("insurance_rate_error" == "insurance_rate_error")
        && (t.shipment_id == s.shipment_id)) && insuranceFires t)
      = (t.shipment_id == s.shipment_id && insuranceFires t)
    rw [show (("insurance_rate_error" : String) == "insurance_rate_error") = true from by decide,
      Bool.true_and]
  · rw [insuranceFires]
    simp only [Bool.and_eq_true, Bool.or_eq_true, decide_eq_true_eq]
  · intro h
    rw [insuranceFires, show decide (s.total_fob_usd > 0) = false from
      decide_eq_false (not_lt.mpr h), Bool.false_and]
  · rw [run_rule_checks, numberAnoms, numberFrom_countP "RULE-"
      (fun a => (a.sub_type == "insurance_rate_error" && a.shipment_id == s.shipment_id)
        && a.severity == "medium")
      (fun a i => rfl)]
    rw [List.countP_append, List.countP_append, List.countP_append, List.countP_append]
    rw [countP_zero_sev (fun a => a.shipment_id == s.shipment_id)
        (fun a => a.severity == "medium") (fun a h => (fobCheck_mem h).1) (by decide),
      countP_zero_sev (fun a => a.shipment_id == s.shipment_id)
        (fun a => a.severity == "medium") (fun a h => drawbackCheck_sub h) (by decide),
      countP_zero_sev (fun a => a.shipment_id == s.shipment_id)
        (fun a => a.severity == "medium") (fun a h => receivedNullCheck_sub h) (by decide),
      countP_zero_sev (fun a => a.shipment_id == s.shipment_id)
        (fun a => a.severity == "medium") (fun a h => cifCheck_sub h) (by decide)]
    rw [insuranceCheck, List.countP_map, List.countP_filter]
    simp only [Nat.zero_add]
    apply countP_ext
    intro t _
    show (((("insurance_rate_error" == "insurance_rate_error")
        && (t.shipment_id == s.shipment_id))
        && ((if insurance_rate t > 0.8 then "medium" else "low") == "medium"))
        && insuranceFires t)
      = ((t.shipment_id == s.shipment_id && insuranceFires t)
        && decide (insurance_rate t > 0.8))
    rw [show (("insurance_rate_error" : String) == "insurance_rate_error") = true from by decide,
      Bool.true_and]
    by_cases hr : insurance_rate t > 0.8
    · rw [if_pos hr, decide_eq_true hr,
        show (("medium" : String) == "medium") = true from by decide]
      cases t.shipment_id == s.shipment_id <;> cases insuranceFires t <;> rfl
    · rw [if_neg hr, decide_eq_false hr,
        show (("low" : String) == "medium") = false from by decide]
      cases t.shipment_id == s.shipment_id <;> cases insuranceFires t <;> rfl
  · rw [run_rule_checks, numberAnoms, numberFrom_countP "RULE-"
      (fun a => (a.sub_type == "insurance_rate_error" && a.shipment_id == s.shipment_id)
        && a.severity == "low")
      (fun a i => rfl)]
    rw [List.countP_append, List.countP_append, List.countP_append, List.countP_append]
    rw [countP_zero_sev (fun a => a.shipment_id == s.shipment_id)
        (fun a => a.severity == "low") (fun a h => (fobCheck_mem h).1) (by decide),
      countP_zero_sev (fun a => a.shipment_id == s.shipment_id)
        (fun a => a.severity == "low") (fun a h => drawbackCheck_sub h) (by decide),
      countP_zero_sev (fun a => a.shipment_id == s.shipment_id)
        (fun a => a.severity == "low") (fun a h => receivedNullCheck_sub h) (by decide),
      countP_zero_sev (fun a => a.shipment_id == s.shipment_id)
        (fun a => a.severity == "low") (fun a h => cifCheck_sub h) (by decide)]
    rw [insuranceCheck, List.countP_map, List.countP_filter]
    simp only [Nat.zero_add]
    apply countP_ext
    intro t _
    show (((("insurance_rate_error" == "insurance_rate_error")
        && (t.shipment_id == s.shipment_id))
        && ((if insurance_rate t > 0.8 then "medium" else "low") == "low"))
        && insuranceFires t)
      = ((t.shipment_id == s.shipment_id && insuranceFires t)
        && !decide (insurance_rate t > 0.8))
    rw [show (("insurance_rate_error" : String) == "insurance_rate_error") = true from by decide,
      Bool.true_and]
    by_cases hr : insurance_rate t > 0.8
    · rw [if_pos hr, decide_eq_true hr,
        show (("medium" : String) == "low") = false from by decide]
      cases t.shipment_id == s.shipment_id <;> cases insuranceFires t <;> rfl
    · rw [if_neg hr, decide_eq_false hr,
        show (("low" : String) == "low") = true from by decide]
      cases t.shipment_id == s.shipment_id <;> cases insuranceFires t <;> rfl
  · intro a ha hsub
    obtain ⟨b, hb, i, rfl⟩ := mem_run_rule_checks ha
    have hsub' : b.sub_type = "insurance_rate_error" := hsub
    rcases hb with hb | hb | hb | hb | hb
    · exact absurd ((fobCheck_mem hb).1 ▸ hsub') (by decide)
    · exact absurd (drawbackCheck_sub hb ▸ hsub') (by decide)
    · exact absurd (receivedNullCheck_sub hb ▸ hsub') (by decide)
    · exact absurd (cifCheck_sub hb ▸ hsub') (by decide)
    · obtain ⟨-, h2, h3⟩ := insuranceCheck_mem hb
      exact ⟨h2, h3⟩

theorem numberFrom_mem_of_mem (pre : String) :
    ∀ (n : Nat) {l : List Anomaly} {b : Anomaly}, b ∈ l →
      ∃ j, setAnomalyId b (pre ++ pad3 j) ∈ numberFrom pre n l := by
  intro n l
  induction l generalizing n with
  | nil => intro b hb; simp at hb
  | cons a t ih =>
      intro b hb
      rcases List.mem_cons.mp hb with rfl | hb
      · exact ⟨n, List.mem_cons_self _ _⟩
      · obtain ⟨j, hj⟩ := ih (n + 1) hb
        exact ⟨j, List.mem_cons_of_mem _ hj⟩

/-- Witness for amended C8: zero insurance and nonpositive declared value
never fire; a 2% rate fires and its emitted anomaly sits on the rule layer
with severity medium or low. -/
theorem C8_insurance_band_amended_witness :
    insuranceFires shipZeroIns = false
  ∧ insuranceFires { baseShip with total_fob_usd := 0 } = false
  ∧ insuranceFires insHotShip = true
  ∧ ∃ a ∈ run_rule_checks [insHotShip],
      a.layer = "rule_based" ∧ (a.severity = "medium" ∨ a.severity = "low") := by
  have hrate : insurance_rate insHotShip = 2 := by
    norm_num [insurance_rate, insHotShip, baseShip]
  have hfires : insuranceFires insHotShip = true := by
    refine (C8_insurance_band_amended [] insHotShip).2.1.mpr ⟨?_, Or.inl ?_⟩
    · norm_num [insHotShip, baseShip]
    · rw [hrate]
      norm_num
  refine ⟨(C8_insurance_band_amended [] shipZeroIns).2.2.1 rfl,
    (C8_insurance_band_amended [] { baseShip with total_fob_usd := 0 }).2.2.2.1 (le_refl 0),
    hfires, ?_⟩
  have hbmem : ∀ b ∈ insuranceCheck [insHotShip],
      b ∈ fobCheck [insHotShip] ++ drawbackCheck [insHotShip]
        ++ receivedNullCheck [insHotShip] ++ cifCheck [insHotShip]
        ++ insuranceCheck [insHotShip] := by
    intro b hb
    exact List.mem_append_right _ hb
  have hbin : (insuranceCheck [insHotShip]).length > 0 := by
    rw [insuranceCheck]
    rw [show List.filter insuranceFires [insHotShip] = [insHotShip] from by
      rw [List.filter_cons_of_pos hfires, List.filter_nil]]
    simp
  obtain ⟨b, hb⟩ := List.exists_mem_of_length_pos hbin
  obtain ⟨j, hj⟩ := numberFrom_mem_of_mem "RULE-" 1 (hbmem b hb)
  refine ⟨setAnomalyId b ("RULE-" ++ pad3 j), hj, ?_⟩
  exact (C8_insurance_band_amended [insHotShip] insHotShip).2.2.2.2.2.2
    (setAnomalyId b ("RULE-" ++ pad3 j)) hj ((insuranceCheck_mem hb).1)

/-- Claim C8 counterexample: a shipment with positive declared value and
zero insurance cost has rate 0%, strictly below the 0.05% band edge, yet
the rule engine emits no insurance_rate_error anomaly for it. -/
theorem C8_insurance_band_counterexample :
    shipZeroIns.insurance_usd = 0
  ∧ shipZeroIns.total_fob_usd > 0
  ∧ insurance_rate shipZeroIns < 0.05
  ∧ (run_rule_checks [shipZeroIns]).countP
      (fun a => a.sub_type == "insurance_rate_error" && a.shipment_id == "S0") = 0 := by
  refine ⟨rfl, by norm_num [shipZeroIns, baseShip], ?_, ?_⟩
  · norm_num [insurance_rate, shipZeroIns, baseShip]
  · rw [run_rule_checks, numberAnoms, numberFrom_countP "RULE-"
      (fun a => a.sub_type == "insurance_rate_error" && a.shipment_id == "S0")
      (fun a i => rfl)]
    rw [List.countP_append, List.countP_append, List.countP_append, List.countP_append]
    rw [countP_zero_of_other _ (fun a h => (fobCheck_mem h).1) (by decide),
      countP_zero_of_other _ (fun a h => drawbackCheck_sub h) (by decide),
      countP_zero_of_other _ (fun a h => receivedNullCheck_sub h) (by decide),
      countP_zero_of_other _ (fun a h => cifCheck_sub h) (by decide)]
    rw [insuranceCheck]
    rw [show List.filter insuranceFires [shipZeroIns] = [] from by
      rw [List.filter_cons_of_neg (by rw [insuranceFires_zero_ins rfl]; simp),
        List.filter_nil]]
    rfl

/-- Claim C4: the accuracy evaluator computes precision, recall and F1 with
zero defaults on zero denominators, excludes MULTI- and CTRY- aggregate keys
from both the detected set and the false-positive pool, and achieves
recall 1.0 whenever every planted shipment id appears in the detected set
(planted ids being pairwise distinct, as in the generated manifest). -/
theorem C4_accuracy_evaluation (planted : List Planted) (anoms : List Anomaly) :
    ((generate_accuracy_report planted anoms).detected_correctly
        = (plantedIds planted ∩ detectedIds anoms).card)
  ∧ ((generate_accuracy_report planted anoms).false_positives
        = (falsePositives planted anoms).length)
  ∧ ((generate_accuracy_report planted anoms).precision =
      if (plantedIds planted ∩ detectedIds anoms).card + (falsePositives planted anoms).length > 0
      then ((plantedIds planted ∩ detectedIds anoms).card : ℚ) /
        (((plantedIds planted ∩ detectedIds anoms).card : ℚ)
          + ((falsePositives planted anoms).length : ℚ))
      else 0)
  ∧ ((generate_accuracy_report planted anoms).recall' =
      if planted.length > 0
      then ((plantedIds planted ∩ detectedIds anoms).card : ℚ) / (planted.length : ℚ)
      else 0)
  ∧ ((generate_accuracy_report planted anoms).f1 =
      if (generate_accuracy_report planted anoms).precision
          + (generate_accuracy_report planted anoms).recall' > 0
      then 2 * (generate_accuracy_report planted anoms).precision
          * (generate_accuracy_report planted anoms).recall'
          / ((generate_accuracy_report planted anoms).precision
            + (generate_accuracy_report planted anoms).recall')
      else 0)
  ∧ (∀ sid ∈ detectedIds anoms, isAggregateKey sid = false)
  ∧ (∀ a ∈ falsePositives planted anoms,
      isAggregateKey a.shipment_id = false ∧ a.shipment_id ∉ plantedIds planted)
  ∧ ((planted.map (fun p => p.shipment_id)).Nodup → planted ≠ [] →
      (∀ p ∈ planted, p.shipment_id ∈ detectedIds anoms) →
      (generate_accuracy_report planted anoms).recall' = 1) := by
  refine ⟨rfl, rfl, rfl, rfl, rfl, ?_, ?_, ?_⟩
  · intro sid hsid
    rw [detectedIds, List.mem_toFinset] at hsid
    obtain ⟨a, ha, rfl⟩ := List.mem_map.mp hsid
    have := List.of_mem_filter ha
    rwa [Bool.not_eq_true'] at this
  · intro a ha
    have h := List.of_mem_filter ha
    rcases Bool.and_eq_true _ _ |>.mp h with ⟨h1, h2⟩
    rw [Bool.not_eq_true'] at h2
    exact ⟨h2, of_decide_eq_true h1⟩
  · intro hnd hne hcov
    have hsub : plantedIds planted ⊆ detectedIds anoms := by
      intro sid hsid
      rw [plantedIds, List.mem_toFinset] at hsid
      obtain ⟨p, hp, rfl⟩ := List.mem_map.mp hsid
      exact hcov p hp
    have hinter : plantedIds planted ∩ detectedIds anoms = plantedIds planted :=
      Finset.inter_eq_left.mpr hsub
    have hcard : (plantedIds planted).card = planted.length := by
      rw [plantedIds, List.toFinset_card_of_nodup hnd, List.length_map]
    have hpos : planted.length > 0 := List.length_pos.mpr hne
    show (if planted.length > 0
        then ((plantedIds planted ∩ detectedIds anoms).card : ℚ) / (planted.length : ℚ)
        else 0) = 1
    rw [if_pos hpos, hinter, hcard, div_self]
    exact Nat.cast_ne_zero.mpr hpos.ne'

/-- Witness for C4: with the one-row manifest fully covered by the detected
set, recall evaluates to 1, and the concrete detected id is not an
aggregate key. -/
theorem C4_accuracy_evaluation_witness :
    (generate_accuracy_report plantedW anomsW).recall' = 1
  ∧ isAggregateKey "SHP-A" = false := by
  have hdet : ("SHP-A" : String) ∈ detectedIds anomsW := by
    rw [detectedIds, List.mem_toFinset]
    refine List.mem_map.mpr ⟨{ statTwin with shipment_id := "SHP-A", sub_type := "price_outlier" }, ?_, rfl⟩
    rw [anomsW]
    refine List.mem_filter.mpr ⟨List.mem_singleton_self _, ?_⟩
    decide
  constructor
  · refine (C4_accuracy_evaluation plantedW anomsW).2.2.2.2.2.2.2 ?_ ?_ ?_
    · rw [plantedW]
      simp
    · simp [plantedW]
    · intro p hp
      rw [plantedW, List.mem_singleton] at hp
      rw [hp]
      exact hdet
  · exact (C4_accuracy_evaluation plantedW anomsW).2.2.2.2.2.1 "SHP-A" hdet

/-- Claim C10: every grouped statistical scan — price per product, transit
per route, freight per route+container (also after its positive-freight
pre-filter), payment per buyer, monthly volume per buyer and per country —
silently emits nothing for a group with fewer than 3 members. -/
theorem C10_min_group_size (zt : ℚ) (products : List ProductInfo)
    (buyers : List Buyer) (prodDesc pol pod ctype buyer country : String)
    (g : List Shipment) (months : List (String × ℚ)) :
    (g.length < 3 →
        priceScanGroup zt products prodDesc g = []
      ∧ transitScanGroup zt pol pod g = []
      ∧ freightScanGroup zt pol pod ctype g = []
      ∧ paymentScanGroup zt buyers buyer g = [])
  ∧ ((g.filter (fun s => decide (s.freight_cost_usd > 0))).length < 3 →
      freightScanGroup zt pol pod ctype g = [])
  ∧ (months.length < 3 →
        buyerVolGroup zt buyer months = []
      ∧ countryVolGroup zt country months = []) := by
  refine ⟨?_, ?_, ?_⟩
  · intro h
    refine ⟨?_, ?_, ?_, ?_⟩
    · rw [priceScanGroup, if_pos h]
    · rw [transitScanGroup, if_pos h]
    · rw [freightScanGroup, if_pos h]
    · rw [paymentScanGroup, if_pos h]
  · intro h
    by_cases hg : g.length < 3
    · rw [freightScanGroup, if_pos hg]
    · rw [freightScanGroup, if_neg hg, if_pos h]
  · intro h
    exact ⟨by rw [buyerVolGroup, if_pos h], by rw [countryVolGroup, if_pos h]⟩

/-- Witness for C10: two-member groups produce no anomaly in any scan. -/
theorem C10_min_group_size_witness :
    priceScanGroup 2.5 [] "P" [baseShip, shipFobCold] = []
  ∧ transitScanGroup 2.5 "L" "D" [baseShip, shipFobCold] = []
  ∧ freightScanGroup 2.5 "L" "D" "20ft" [baseShip, shipFobCold] = []
  ∧ paymentScanGroup 2.5 [] "B" [baseShip, shipFobCold] = []
  ∧ buyerVolGroup 2.5 "B" [("2025-01", 10), ("2025-02", 20)] = []
  ∧ countryVolGroup 2.5 "X" [("2025-01", 10), ("2025-02", 20)] = [] := by
  have hlen : ([baseShip, shipFobCold] : List Shipment).length < 3 := by norm_num
  have hflt : (([baseShip, shipFobCold] : List Shipment).filter
      (fun s => decide (s.freight_cost_usd > 0))).length < 3 :=
    Nat.lt_of_le_of_lt (List.length_filter_le _ _) (by norm_num)
  obtain ⟨h1, h2, h3, h4⟩ :=
    (C10_min_group_size 2.5 [] [] "P" "L" "D" "20ft" "B" "X"
      [baseShip, shipFobCold] [("2025-01", 10), ("2025-02", 20)]).1 hlen
  obtain ⟨h5, h6⟩ :=
    (C10_min_group_size 2.5 [] [] "P" "L" "D" "20ft" "B" "X"
      [baseShip, shipFobCold] [("2025-01", 10), ("2025-02", 20)]).2.2 (by norm_num)
  have h3' :=
    (C10_min_group_size 2.5 [] [] "P" "L" "D" "20ft" "B" "X"
      [baseShip, shipFobCold] [("2025-01", 10), ("2025-02", 20)]).2.1 hflt
  exact ⟨h1, h2, h3', h4, h5, h6⟩

/-- Claim C9: on any response on which every parsing stage fails — the
capability sentinel (a "[LLM..." string), or text on which extraction runs
to completion without raising and yields a falsy result — the HS-code
validation returns an empty anomaly list (and does not raise), and the
pipeline's final report equals the report built from the rule and
statistical layers alone. A successful direct parse to an unsized value
instead raises an uncaught TypeError (`.error` in the model) and is
excluded by the hypothesis: the claim covers failing stages, not a
succeeding parse of a degenerate value. -/
theorem C9_degraded_layer_harmless (resp : String) (shipments : List Shipment)
    (ruleAnoms statAnoms : List Anomaly) :
    (strLead "[LLM" resp = true
      ∨ ∃ v, extract_json_from_response resp = Except.ok v ∧ pyFalsy v = true) →
      validate_hs_codes shipments resp = Except.ok []
    ∧ pipelineAnomalies ruleAnoms statAnoms []
        = generate_report_anomalies (deduplicate_anomalies (ruleAnoms ++ statAnoms)) := by
  intro h
  constructor
  · rw [validate_hs_codes]
    by_cases hs : strLead "[LLM" resp = true
    · rw [if_pos hs]
    · rcases h with h | ⟨v, hv, hf⟩
      · exact absurd h hs
      · rw [if_neg hs, hv]
        simp only [hf, if_true]
  · rw [pipelineAnomalies, List.append_nil]

/-- Witness for C9: a plain-text response defeats every stage — no fence,
no bracket, both parses fail, no manual entries — so extraction returns the
empty array without raising, and the layer degrades to zero findings
without disturbing the other layers' report. -/
theorem C9_degraded_layer_harmless_witness :
    validate_hs_codes [] "I could not find any issues." = Except.ok []
  ∧ pipelineAnomalies [ruleTwin] [statTwin] []
      = generate_report_anomalies (deduplicate_anomalies ([ruleTwin] ++ [statTwin])) :=
  C9_degraded_layer_harmless "I could not find any issues." [] [ruleTwin] [statTwin]
    (Or.inr ⟨JVal.arr [], rfl, rfl⟩)
